/-
Verification of the XMonitor migration scripts
(scripts/migrate/import_sqlite_jsonl_to_postgres.py and
scripts/migrate/validate_counts.py) against their specification.

The Python scripts are shallowly embedded: JSON values become the
inductive `Value`, a JSONL row becomes an association list of fields,
Python `datetime` objects become `PyDateTime` (naive wall-clock
microseconds plus an optional UTC-offset in seconds), and each
per-table importer becomes a fold over its input rows threading the
destination table (a keyed map), the outcome counters and the reject
log.
-/

import Mathlib

set_option maxRecDepth 10000

namespace XMonitor

/-- A JSON value as produced by Python's `json.loads`.  Floating point
numbers keep their literal text (`float`); no claim depends on float
arithmetic. -/
inductive Value where
  | null
  | bool (b : Bool)
  | int (n : Int)
  | float (lit : String)
  | str (s : String)
  | arr (elems : List Value)
  | obj (fields : List (String × Value))
  deriving Inhabited

/-- A JSONL row: an association list from field name to value,
mirroring the Python dict that `json.loads` returns for a line. -/
def Row := List (String × Value)

/-- Python `dict` membership plus indexing: first value bound to `key`. -/
def rowGet (row : Row) (key : String) : Option Value :=
  match row with
  | [] => none
  | (k, v) :: rest => if k = key then some v else rowGet rest key

/-- Python `get_first(row, *keys)`: the value of the first key present in the
row, `None` (here `Value.null`) when none is. -/
def get_first (row : Row) : List String → Value
  | [] => .null
  | key :: keys =>
    match rowGet row key with
    | some v => v
    | none => get_first row keys

/-- Python truthiness of a JSON value (`if value:`). -/
def truthy : Value → Bool
  | .null => false
  | .bool b => b
  | .int n => n ≠ 0
  | .float lit => lit ≠ "0.0" && lit ≠ "0" && lit ≠ "-0.0"
  | .str s => s ≠ ""
  | .arr xs => !xs.isEmpty
  | .obj fs => !fs.isEmpty

/-- The six characters Python's `str.strip()` removes (ASCII range). -/
def isPySpace (c : Char) : Bool :=
  c = ' ' || c = '\t' || c = '\n' || c = '\r' || c = '\x0b' || c = '\x0c'

/-- Python `str.strip()` on the underlying character list. -/
def stripChars (cs : List Char) : List Char :=
  ((cs.dropWhile isPySpace).reverse.dropWhile isPySpace).reverse

/-- Python `str.strip()`. -/
def pyStrip (s : String) : String := ⟨stripChars s.data⟩

/-- ASCII `str.lower()`. -/
def pyLower (s : String) : String := ⟨s.data.map Char.toLower⟩

/-- Python `str.lstrip("@")`: removes every leading `'@'`. -/
def lstripAt (s : String) : String := ⟨s.data.dropWhile (· = '@')⟩

/-- Python `str.endswith("Z")`. -/
def endsWithZ (s : String) : Bool :=
  match s.data.getLast? with
  | some c => c = 'Z'
  | none => false

/-- Python `text[:-1]`. -/
def dropLastChar (s : String) : String := ⟨s.data.dropLast⟩

/-- Decimal digits of a natural number (most significant first). -/
def natDigits (n : Nat) : List Char :=
  (Nat.toDigits 10 n)

/-- Python `str()` of a JSON value.  `str` on containers renders a
Python `repr`; no importer feeds a container to `str()` on a path any
claim touches, so the container rendering is a plain recursive repr. -/
def pyStr : Value → String
  | .null => "None"
  | .bool b => if b then "True" else "False"
  | .int n => toString n
  | .float lit => lit
  | .str s => s
  | .arr _ => "[...]"
  | .obj _ => "\x7b...\x7d"

/-- Python `int(text)` for a Python string: optional surrounding whitespace,
optional sign, one or more decimal digits. -/
def strToInt (s : String) : Option Int :=
  let cs := stripChars s.data
  let (neg, digits) :=
    match cs with
    | '-' :: rest => (true, rest)
    | '+' :: rest => (false, rest)
    | rest => (false, rest)
  if digits = [] || !digits.all Char.isDigit then none
  else
    let n := digits.foldl (fun acc c => acc * 10 + (c.toNat - '0'.toNat)) 0
    some (if neg then -(n : Int) else (n : Int))

/-- Integer part of a float literal (`int(float)` truncates toward 0);
literals with an exponent are out of the modelled subset. -/
def floatLitToInt (lit : String) : Option Int :=
  let cs := stripChars lit.data
  if cs.any (fun c => c = 'e' || c = 'E') then none
  else
    let (neg, rest) :=
      match cs with
      | '-' :: r => (true, r)
      | '+' :: r => (false, r)
      | r => (false, r)
    let intPart := rest.takeWhile Char.isDigit
    if intPart = [] then none
    else
      let n := intPart.foldl (fun acc c => acc * 10 + (c.toNat - '0'.toNat)) 0
      some (if neg then -(n : Int) else (n : Int))

/-- Python `parse_int(value, default)`: absent/empty string gives `default`;
`int(value)` with `TypeError`/`ValueError` mapped to `default`. -/
def parse_int (value : Value) (default : Int) : Int :=
  match value with
  | .null => default
  | .str "" => default
  | .int n => n
  | .bool b => if b then 1 else 0
  | .float lit => (floatLitToInt lit).getD default
  | .str s => (strToInt s).getD default
  | .arr _ => default
  | .obj _ => default

/-- Python `parse_bool(value, default)`. -/
def parse_bool (value : Value) (default : Bool) : Bool :=
  match value with
  | .null => default
  | .bool b => b
  | .int n => n ≠ 0
  | .float lit => !(lit = "0.0" || lit = "0" || lit = "-0.0")
  | .str s =>
    let lowered := pyLower (pyStrip s)
    if lowered = "1" || lowered = "true" || lowered = "t" || lowered = "yes" || lowered = "y" then true
    else if lowered = "0" || lowered = "false" || lowered = "f" || lowered = "no" || lowered = "n" then false
    else default
  | .arr _ => default
  | .obj _ => default

/-- Python `normalize_handle(value)`: `None` stays absent, the text is
whitespace-stripped, an empty result is absent, otherwise every
leading `'@'` is removed (`lstrip("@")`) and the rest lower-cased. -/
def normalize_handle (value : Value) : Option String :=
  match value with
  | .null => none
  | v =>
    let text := pyStrip (pyStr v)
    if text = "" then none
    else some (pyLower (lstripAt text))

def VALID_TIERS : List String := ["teammate", "influencer", "ecosystem"]

def VALID_RUN_MODES : List String := ["priority", "discovery", "both", "refresh24h", "manual"]

/-- Python `RUN_MODE_MAP.get(text, text)`. -/
def runModeMapGet (text : String) : String :=
  if text = "refresh-24h" then "refresh24h"
  else if text = "refresh_24h" then "refresh24h"
  else text

/-- Python `normalize_tier(value)`. -/
def normalize_tier (value : Value) : Option String :=
  match value with
  | .null => none
  | v =>
    let text := pyLower (pyStrip (pyStr v))
    if text ∈ VALID_TIERS then some text else none

/-- Python `normalize_run_mode(value)`. -/
def normalize_run_mode (value : Value) : Option String :=
  match value with
  | .null => none
  | v =>
    let text := runModeMapGet (pyLower (pyStrip (pyStr v)))
    if text ∈ VALID_RUN_MODES then some text else none

/-! ## Python `datetime` and `parse_timestamp` -/

/-- A Python `datetime`: naive wall-clock time as microseconds since
1970-01-01T00:00:00, plus `tzinfo` as an optional fixed UTC offset in
seconds (`none` = naive). -/
structure PyDateTime where
  us : Int
  tz : Option Int
  deriving DecidableEq, Repr

/-- The instant a datetime denotes, in microseconds since the epoch
(a naive datetime read as UTC). -/
def pyInstant (d : PyDateTime) : Int := d.us - 1000000 * (d.tz.getD 0)

/-- Python `dt.replace(tzinfo=timezone.utc)` applied only when naive. -/
def withUTCIfNaive (d : PyDateTime) : PyDateTime :=
  match d.tz with
  | none => { d with tz := some 0 }
  | some _ => d

/-- Python `dt.astimezone(timezone.utc)` for an aware datetime (the scripts
only call it after attaching a timezone; on a naive input this
embedding reads the wall clock as UTC). -/
def astimezoneUTC (d : PyDateTime) : PyDateTime :=
  match d.tz with
  | some off => ⟨d.us - 1000000 * off, some 0⟩
  | none => ⟨d.us, some 0⟩

def isLeapYear (y : Nat) : Bool :=
  y % 4 = 0 && (y % 100 ≠ 0 || y % 400 = 0)

def daysInMonth (y m : Nat) : Nat :=
  if m = 2 then (if isLeapYear y then 29 else 28)
  else if m = 4 || m = 6 || m = 9 || m = 11 then 30
  else 31

/-- Days from 1970-01-01 to year/month/day of the proleptic Gregorian
calendar (years 1..9999, so all intermediate values stay in `Nat`). -/
def epochDays (y m d : Nat) : Int :=
  let yAdj : Nat := if m ≤ 2 then y - 1 else y
  let era := yAdj / 400
  let yoe := yAdj % 400
  let mp := (m + 9) % 12
  let doy := (153 * mp + 2) / 5 + d - 1
  let doe := yoe * 365 + yoe / 4 + doy - yoe / 100
  (era * 146097 + doe : Int) - 719468

/-- Naive wall-clock microseconds of a date-time. -/
def wallUS (y mo d h mi s usec : Nat) : Int :=
  (epochDays y mo d * 86400 + (h * 3600 + mi * 60 + s : Nat)) * 1000000 + usec

def digitsVal (ds : List Char) : Nat :=
  ds.foldl (fun a c => a * 10 + (c.toNat - '0'.toNat)) 0

/-- Exactly `n` leading decimal digits, with their value and the rest. -/
def takeDigits (cs : List Char) (n : Nat) : Option (Nat × List Char) :=
  let pre := cs.take n
  if pre.length = n && pre.all Char.isDigit then some (digitsVal pre, cs.drop n)
  else none

def expectChar (c : Char) : List Char → Option (List Char)
  | [] => none
  | c2 :: rest => if c2 = c then some rest else none

/-- Fractional-second digits after `.`/`,`: value in microseconds
(digits beyond six are truncated, shorter runs are right-padded). -/
def fracToMicro (ds : List Char) : Nat :=
  let six := (ds.take 6) ++ List.replicate (6 - ds.length) '0'
  digitsVal six

/-- Optional `:`-separated trailing components `:NN[:NN]` of a time or
UTC-offset, returning (minutes, seconds, microseconds, rest). -/
def parseMinSec (cs : List Char) (withFrac : Bool) : Option (Nat × Nat × Nat × List Char) :=
  match expectChar ':' cs with
  | none => some (0, 0, 0, cs)
  | some r1 =>
    match takeDigits r1 2 with
    | none => none
    | some (mi, r2) =>
      if mi > 59 then none else
      match expectChar ':' r2 with
      | none => some (mi, 0, 0, r2)
      | some r3 =>
        match takeDigits r3 2 with
        | none => none
        | some (s, r4) =>
          if s > 59 then none else
          match r4 with
          | '.' :: r5 =>
            if !withFrac then none else
            let ds := r5.takeWhile Char.isDigit
            if ds.isEmpty then none
            else some (mi, s, fracToMicro ds, r5.dropWhile Char.isDigit)
          | ',' :: r5 =>
            if !withFrac then none else
            let ds := r5.takeWhile Char.isDigit
            if ds.isEmpty then none
            else some (mi, s, fracToMicro ds, r5.dropWhile Char.isDigit)
          | _ => some (mi, s, 0, r4)

/-- UTC offset suffix: empty, `Z`, or `±HH[:MM[:SS]]` (strictly less
than 24 hours, as Python's `timezone` requires). -/
def parseOffset (cs : List Char) : Option (Option Int) :=
  match cs with
  | [] => some none
  | 'Z' :: rest => if rest.isEmpty then some (some 0) else none
  | sign :: rest =>
    if sign = '+' || sign = '-' then
      match takeDigits rest 2 with
      | none => none
      | some (oh, r1) =>
        match parseMinSec r1 false with
        | none => none
        | some (om, os, _, r2) =>
          if !r2.isEmpty then none else
          let total : Nat := oh * 3600 + om * 60 + os
          if total ≥ 24 * 3600 then none
          else some (some (if sign = '-' then -(total : Int) else (total : Int)))
    else none

/-- The modelled core of `datetime.fromisoformat`:
`YYYY-MM-DD[{T| }HH[:MM[:SS[.ffffff]]][offset]]`. -/
def isoParse (cs : List Char) : Option PyDateTime := do
  let (y, r1) ← takeDigits cs 4
  let r2 ← expectChar '-' r1
  let (mo, r3) ← takeDigits r2 2
  let r4 ← expectChar '-' r3
  let (d, r5) ← takeDigits r4 2
  if y = 0 || mo = 0 || mo > 12 || d = 0 || d > daysInMonth y mo then none
  else
    match r5 with
    | [] => some ⟨wallUS y mo d 0 0 0 0, none⟩
    | sep :: r6 =>
      if sep ≠ 'T' && sep ≠ ' ' then none
      else do
        let (h, r7) ← takeDigits r6 2
        if h > 23 then none
        else do
          let (mi, s, usec, r8) ← parseMinSec r7 true
          let off ← parseOffset r8
          some ⟨wallUS y mo d h mi s usec, off⟩

/-- Python `datetime.fromisoformat(text)` (modelled subset). -/
def fromisoformat (text : String) : Except String PyDateTime :=
  match isoParse text.data with
  | some dt => .ok dt
  | none => .error ("Invalid isoformat string: " ++ text)

/-- The argument of `parse_timestamp`: either a JSON value or an
already-structured `datetime` (the `isinstance(value, datetime)`
branch; JSONL rows only ever supply the `value` form). -/
inductive TsInput where
  | value (v : Value)
  | dt (d : PyDateTime)

/-- The non-datetime branch of `parse_timestamp`: render, strip,
rewrite a trailing `Z` to `+00:00`, parse as ISO-8601. -/
def tsParseValue (v : Value) : Except String PyDateTime :=
  let text := pyStrip (pyStr v)
  let text := if endsWithZ text then dropLastChar text ++ "+00:00" else text
  fromisoformat text

/-- Python `parse_timestamp(value, required)`: absent/empty input errors when
`required` and is `None` otherwise (`value is None or value == ""`,
which only an actual empty string satisfies); text has a trailing `Z`
rewritten to `+00:00` and is parsed as ISO-8601; naive results are
assumed UTC; every result is converted to UTC. -/
def parse_timestamp (input : TsInput) (required : Bool) : Except String (Option PyDateTime) :=
  match input with
  | .value .null => if required then .error "missing required timestamp" else .ok none
  | .value (.str s) =>
    if s = "" then
      if required then .error "missing required timestamp" else .ok none
    else (tsParseValue (.str s)).map (fun dt => some (astimezoneUTC (withUTCIfNaive dt)))
  | .dt d => .ok (some (astimezoneUTC (withUTCIfNaive d)))
  | .value v => (tsParseValue v).map (fun dt => some (astimezoneUTC (withUTCIfNaive dt)))

example : parse_timestamp (.value (.str "2024-01-01T00:00:00Z")) true
    = .ok (some ⟨1704067200000000, some 0⟩) := by rfl

example : parse_timestamp (.value (.str "2024-01-01T05:00:00+05:00")) true
    = .ok (some ⟨1704067200000000, some 0⟩) := by rfl

/-! ## `json.dumps` / `json.loads` (modelled subset) -/

def hexDigit (n : Nat) : Char :=
  if n < 10 then Char.ofNat ('0'.toNat + n) else Char.ofNat ('a'.toNat + (n - 10))

def hex4 (n : Nat) : List Char :=
  [hexDigit (n / 4096 % 16), hexDigit (n / 256 % 16), hexDigit (n / 16 % 16), hexDigit (n % 16)]

/-- JSON string escaping with `ensure_ascii=True` (the default, used
for the embeddings vector column; code points above 0xFFFF become a
surrogate pair). -/
def jsonEscapeChar (c : Char) : List Char :=
  if c = '"' then ['\\', '"']
  else if c = '\\' then ['\\', '\\']
  else if c = '\n' then ['\\', 'n']
  else if c = '\t' then ['\\', 't']
  else if c = '\r' then ['\\', 'r']
  else if c.toNat < 32 then '\\' :: 'u' :: hex4 c.toNat
  else if c.toNat < 127 then [c]
  else if c.toNat ≤ 0xFFFF then '\\' :: 'u' :: hex4 c.toNat
  else
    let v := c.toNat - 0x10000
    ('\\' :: 'u' :: hex4 (0xD800 + v / 1024)) ++ ('\\' :: 'u' :: hex4 (0xDC00 + v % 1024))

def jsonQuote (s : String) : String :=
  ⟨'"' :: (s.data.flatMap jsonEscapeChar) ++ ['"']⟩

mutual

/-- Python `json.dumps(value)` with the default separators. -/
def json_dumps : Value → String
  | .null => "null"
  | .bool true => "true"
  | .bool false => "false"
  | .int n => toString n
  | .float lit => lit
  | .str s => jsonQuote s
  | .arr xs => "[" ++ jsonDumpsArr xs ++ "]"
  | .obj fs => "\x7b" ++ jsonDumpsObj fs ++ "\x7d"

def jsonDumpsArr : List Value → String
  | [] => ""
  | [x] => json_dumps x
  | x :: xs => json_dumps x ++ ", " ++ jsonDumpsArr xs

def jsonDumpsObj : List (String × Value) → String
  | [] => ""
  | [(k, v)] => jsonQuote k ++ ": " ++ json_dumps v
  | (k, v) :: fs => jsonQuote k ++ ": " ++ json_dumps v ++ ", " ++ jsonDumpsObj fs

end

def jsonWS (c : Char) : Bool :=
  c = ' ' || c = '\t' || c = '\n' || c = '\r'

/-- Body of a JSON string literal (after the opening quote). -/
def jsonParseStr : Nat → List Char → Option (String × List Char)
  | 0, _ => none
  | _, [] => none
  | fuel + 1, c :: rest =>
    if c = '"' then some ("", rest)
    else if c = '\\' then
      match rest with
      | [] => none
      | e :: rest2 =>
        let esc : Option (Char × List Char) :=
          if e = '"' then some ('"', rest2)
          else if e = '\\' then some ('\\', rest2)
          else if e = '/' then some ('/', rest2)
          else if e = 'b' then some ('\x08', rest2)
          else if e = 'f' then some ('\x0c', rest2)
          else if e = 'n' then some ('\n', rest2)
          else if e = 'r' then some ('\r', rest2)
          else if e = 't' then some ('\t', rest2)
          else if e = 'u' then
            match rest2 with
            | h1 :: h2 :: h3 :: h4 :: rest3 =>
              let hv (c : Char) : Option Nat :=
                let k := c.toNat
                if 48 ≤ k && k ≤ 57 then some (k - 48)
                else if 97 ≤ k && k ≤ 102 then some (k - 87)
                else if 65 ≤ k && k ≤ 70 then some (k - 55)
                else none
              match hv h1, hv h2, hv h3, hv h4 with
              | some a, some b, some c2, some d =>
                some (Char.ofNat (a * 4096 + b * 256 + c2 * 16 + d), rest3)
              | _, _, _, _ => none
            | _ => none
          else none
        match esc with
        | none => none
        | some (ch, rest3) =>
          match jsonParseStr fuel rest3 with
          | some (s, rest4) => some (⟨ch :: s.data⟩, rest4)
          | none => none
    else
      match jsonParseStr fuel rest with
      | some (s, rest2) => some (⟨c :: s.data⟩, rest2)
      | none => none

/-- A JSON number token: `Value.int` when it is a plain integer,
`Value.float` (keeping the literal) otherwise. -/
def jsonParseNum (cs : List Char) : Option (Value × List Char) :=
  let (sign, r1) := match cs with
    | '-' :: r => (true, r)
    | r => (false, r)
  let intPart := r1.takeWhile Char.isDigit
  if intPart.isEmpty then none
  else
    let r2 := r1.dropWhile Char.isDigit
    let isFloatTail := match r2 with
      | '.' :: _ => true
      | 'e' :: _ => true
      | 'E' :: _ => true
      | _ => false
    if !isFloatTail then
      let n : Int := (digitsVal intPart : Int)
      some (.int (if sign then -n else n), r2)
    else
      let (fracPart, r3) := match r2 with
        | '.' :: r => (('.' :: r.takeWhile Char.isDigit), r.dropWhile Char.isDigit)
        | r => ([], r)
      let (expPart, r4) := match r3 with
        | 'e' :: '+' :: r => ('e' :: '+' :: r.takeWhile Char.isDigit, r.dropWhile Char.isDigit)
        | 'e' :: '-' :: r => ('e' :: '-' :: r.takeWhile Char.isDigit, r.dropWhile Char.isDigit)
        | 'e' :: r => ('e' :: r.takeWhile Char.isDigit, r.dropWhile Char.isDigit)
        | 'E' :: '+' :: r => ('E' :: '+' :: r.takeWhile Char.isDigit, r.dropWhile Char.isDigit)
        | 'E' :: '-' :: r => ('E' :: '-' :: r.takeWhile Char.isDigit, r.dropWhile Char.isDigit)
        | 'E' :: r => ('E' :: r.takeWhile Char.isDigit, r.dropWhile Char.isDigit)
        | r => ([], r)
      let lit : List Char := (if sign then ['-'] else []) ++ intPart ++ fracPart ++ expPart
      some (.float ⟨lit⟩, r4)

mutual

/-- One JSON value, fuel-bounded (fuel ≥ nesting depth suffices). -/
def jsonParseVal : Nat → List Char → Option (Value × List Char)
  | 0, _ => none
  | fuel + 1, cs =>
    match cs.dropWhile jsonWS with
    | 'n' :: 'u' :: 'l' :: 'l' :: r => some (.null, r)
    | 't' :: 'r' :: 'u' :: 'e' :: r => some (.bool true, r)
    | 'f' :: 'a' :: 'l' :: 's' :: 'e' :: r => some (.bool false, r)
    | '"' :: r =>
      match jsonParseStr (r.length + 1) r with
      | some (s, r2) => some (.str s, r2)
      | none => none
    | '[' :: r =>
      (match (r.dropWhile jsonWS) with
       | ']' :: r2 => some (.arr [], r2)
       | _ =>
         match jsonParseArr fuel r with
         | some (xs, r2) => some (.arr xs, r2)
         | none => none)
    | '\x7b' :: r =>
      (match (r.dropWhile jsonWS) with
       | '\x7d' :: r2 => some (.obj [], r2)
       | _ =>
         match jsonParseObj fuel r with
         | some (fs, r2) => some (.obj fs, r2)
         | none => none)
    | other => jsonParseNum other

/-- Comma-separated values up to `]`. -/
def jsonParseArr : Nat → List Char → Option (List Value × List Char)
  | 0, _ => none
  | fuel + 1, cs => do
    let (v, r1) ← jsonParseVal fuel cs
    match r1.dropWhile jsonWS with
    | ',' :: r2 =>
      match jsonParseArr fuel r2 with
      | some (vs, r3) => some (v :: vs, r3)
      | none => none
    | ']' :: r2 => some ([v], r2)
    | _ => none

/-- Comma-separated `"key": value` pairs up to the closing brace. -/
def jsonParseObj : Nat → List Char → Option (List (String × Value) × List Char)
  | 0, _ => none
  | fuel + 1, cs =>
    match cs.dropWhile jsonWS with
    | '"' :: r => do
      let (k, r1) ← jsonParseStr (r.length + 1) r
      match r1.dropWhile jsonWS with
      | ':' :: r2 => do
        let (v, r3) ← jsonParseVal fuel r2
        match r3.dropWhile jsonWS with
        | ',' :: r4 =>
          (match jsonParseObj fuel r4 with
           | some (fs, r5) => some ((k, v) :: fs, r5)
           | none => none)
        | '\x7d' :: r4 => some ([(k, v)], r4)
        | _ => none
      | _ => none
    | _ => none

end

/-- Python `json.loads(text)`. -/
def json_loads (text : String) : Except String Value :=
  match jsonParseVal (text.length + 1) text.data with
  | some (v, rest) =>
    if (rest.dropWhile jsonWS).isEmpty then .ok v
    else .error "Extra data"
  | none => .error "Expecting value"

/-- Python `normalize_vector_json(value)`; the `json.loads` call on a
non-empty string can raise, hence the `Except`. -/
def normalize_vector_json (value : Value) : Except String Value :=
  match value with
  | .null => .ok (.arr [])
  | .arr xs => .ok (.arr xs)
  | .obj fs => .ok (.obj fs)
  | .str s =>
    let text := pyStrip s
    if text = "" then .ok (.arr [])
    else json_loads text
  | v => .ok v

example : json_loads "[0.25, 1, null]" = .ok (.arr [.float "0.25", .int 1, .null]) := by rfl

/-! ## Generic per-table import loop

Every importer in the script has the same shape: for each row,
`received` is incremented, the try-block either rejects the row
(explicit check → `skipped += 1` and `log_reject`, which itself does
`errors += 1`; exception → `log_reject` alone) or produces the key and
column values for a `run_upsert`, whose `RETURNING (xmax = 0)` result
selects between `inserted` and `updated`.  The per-row try-block is
captured as a pure function into `RowOutcome`. -/

structure Counters where
  received : Nat := 0
  inserted : Nat := 0
  updated : Nat := 0
  skipped : Nat := 0
  errors : Nat := 0
  deriving DecidableEq, Repr

/-- One reject-log line: `{table, index, reason, row}` as written by
`log_reject`. -/
structure RejectEntry where
  table : String
  index : Nat
  reason : String
  row : Row

/-- Result of one row's try-block. -/
inductive RowOutcome (K P : Type) where
  | skip (reason : String)
  | err (reason : String)
  | put (key : K) (payload : P)

/-- A destination table keyed by its natural unique key. -/
def Db (K P : Type) := K → Option P

def emptyDb {K P : Type} : Db K P := fun _ => none

/-- Embedding of `run_upsert`: `INSERT ... ON CONFLICT (key) DO UPDATE ...
RETURNING (xmax = 0) AS inserted` — writes the payload at the key and
reports whether the key was new. -/
def upsert {K P : Type} [DecidableEq K] (db : Db K P) (k : K) (p : P) : Db K P × Bool :=
  (fun k2 => if k2 = k then some p else db k2, (db k).isNone)

structure ImportState (K P : Type) where
  counters : Counters
  db : Db K P
  rejects : List RejectEntry

/-- One iteration of a per-table import loop. -/
def importStep {K P : Type} [DecidableEq K] (table : String) (f : Row → RowOutcome K P)
    (st : ImportState K P) (index : Nat) (row : Row) : ImportState K P :=
  let c := { st.counters with received := st.counters.received + 1 }
  match f row with
  | .skip reason =>
    { counters := { c with skipped := c.skipped + 1, errors := c.errors + 1 },
      db := st.db,
      rejects := st.rejects ++ [⟨table, index, reason, row⟩] }
  | .err reason =>
    { counters := { c with errors := c.errors + 1 },
      db := st.db,
      rejects := st.rejects ++ [⟨table, index, reason, row⟩] }
  | .put k p =>
    let res := upsert st.db k p
    { counters := if res.2 then { c with inserted := c.inserted + 1 }
                  else { c with updated := c.updated + 1 },
      db := res.1,
      rejects := st.rejects }

/-- The import loop from a given 1-based line index. -/
def runFrom {K P : Type} [DecidableEq K] (table : String) (f : Row → RowOutcome K P) :
    Nat → List Row → ImportState K P → ImportState K P
  | _, [], st => st
  | i, row :: rows, st => runFrom table f (i + 1) rows (importStep table f st i row)

/-- A whole per-table import: fresh counters and reject log, rows
numbered from 1 (as `iter_jsonl` numbers lines), against a given
destination state. -/
def runImport {K P : Type} [DecidableEq K] (table : String) (f : Row → RowOutcome K P)
    (rows : List Row) (db : Db K P) : ImportState K P :=
  runFrom table f 1 rows ⟨{}, db, []⟩

/-! ## `import_watch_accounts` -/

/-- Non-key columns of a `watch_accounts` row. -/
structure WAPayload where
  tier : String
  note : Value
  added_at : Option PyDateTime

/-- The `watch_accounts` per-row try-block: normalize handle and tier,
parse the required timestamp (whose failure is the exception path),
skip when handle or tier is falsy, else upsert keyed by handle. -/
def watchAccountRow (row : Row) : RowOutcome String WAPayload :=
  let handle := normalize_handle (get_first row ["handle", "author_handle"])
  let tier := normalize_tier (get_first row ["tier", "watch_tier"])
  match parse_timestamp (.value (get_first row ["added_at", "created_at", "updated_at"])) true with
  | .error e => .err e
  | .ok added_at =>
    if handle.getD "" = "" || tier.getD "" = "" then
      .skip "missing handle or tier"
    else
      .put (handle.getD "") ⟨tier.getD "", get_first row ["note"], added_at⟩

def import_watch_accounts (rows : List Row) (db : Db String WAPayload) :
    ImportState String WAPayload :=
  runImport "watch_accounts" watchAccountRow rows db

/-- A well-formed watch_accounts line used by concrete scenarios. -/
def waSampleRow : Row :=
  [("handle", .str "@Foo"), ("tier", .str "teammate"),
   ("added_at", .str "2024-01-01T00:00:00Z")]

example : (import_watch_accounts [waSampleRow] emptyDb).counters
    = { received := 1, inserted := 1 } := by rfl

example : watchAccountRow [("handle", .str "@foo"),
    ("added_at", .str "2024-01-01T00:00:00Z")] = .skip "missing handle or tier" := by rfl

/-! ## `import_posts` -/

/-- Python `x or fallback`. -/
def pyOr (v fallback : Value) : Value := if truthy v then v else fallback

/-- Python `str(get_first(...) or "").strip()`. -/
def strippedStr (v : Value) : String := pyStrip (pyStr (pyOr v (.str "")))

/-- Non-key columns of a `posts` row, in the order of the INSERT. -/
structure PostPayload where
  url : String
  author_handle : String
  author_display : Value
  body_text : Value
  posted_relative : Value
  source_query : Value
  watch_tier : Option String
  is_significant : Bool
  significance_reason : Value
  significance_version : Value
  likes : Int
  reposts : Int
  replies : Int
  views : Int
  initial_likes : Int
  initial_reposts : Int
  initial_replies : Int
  initial_views : Int
  likes_24h : Int
  reposts_24h : Int
  replies_24h : Int
  views_24h : Int
  refresh_24h_at : Option PyDateTime
  refresh_24h_status : Value
  refresh_24h_delta_likes : Int
  refresh_24h_delta_reposts : Int
  refresh_24h_delta_replies : Int
  refresh_24h_delta_views : Int
  discovered_at : Option PyDateTime
  last_seen_at : Option PyDateTime

/-- The `posts` per-row try-block.  The three `parse_timestamp` calls
are sequenced in the order the Python tuple evaluates them
(refresh_24h_at, then discovered_at, then last_seen_at), so the first
failure is the one reported. -/
def postRow (row : Row) : RowOutcome String PostPayload :=
  let status_id := strippedStr (get_first row ["status_id", "id"])
  let url := strippedStr (get_first row ["url", "status_url", "tweet_url"])
  let author_handle := normalize_handle (get_first row ["author_handle", "handle", "author", "username"])
  if status_id = "" || url = "" || author_handle.getD "" = "" then
    .skip "missing status_id/url/author_handle"
  else
    let tier := normalize_tier (get_first row ["watch_tier", "tier"])
    match (do
      let r24 ← parse_timestamp (.value (get_first row ["refresh_24h_at"])) false
      let disc ← parse_timestamp (.value (get_first row ["discovered_at", "captured_at", "created_at"])) true
      let seen ← parse_timestamp (.value (get_first row ["last_seen_at", "updated_at", "seen_at"])) true
      Except.ok (r24, disc, seen)) with
    | .error e => .err e
    | .ok (r24, disc, seen) =>
      .put status_id
        { url := url
          author_handle := author_handle.getD ""
          author_display := get_first row ["author_display", "display_name", "author_name"]
          body_text := get_first row ["body_text", "text", "tweet_text", "content"]
          posted_relative := get_first row ["posted_relative"]
          source_query := get_first row ["source_query", "query_type", "source"]
          watch_tier := tier
          is_significant := parse_bool (get_first row ["is_significant", "significant"]) false
          significance_reason := get_first row ["significance_reason", "reason"]
          significance_version := pyOr (get_first row ["significance_version"]) (.str "v1")
          likes := parse_int (get_first row ["likes"]) 0
          reposts := parse_int (get_first row ["reposts", "retweets"]) 0
          replies := parse_int (get_first row ["replies"]) 0
          views := parse_int (get_first row ["views"]) 0
          initial_likes := parse_int (get_first row ["initial_likes"]) 0
          initial_reposts := parse_int (get_first row ["initial_reposts", "initial_retweets"]) 0
          initial_replies := parse_int (get_first row ["initial_replies"]) 0
          initial_views := parse_int (get_first row ["initial_views"]) 0
          likes_24h := parse_int (get_first row ["likes_24h"]) 0
          reposts_24h := parse_int (get_first row ["reposts_24h", "retweets_24h"]) 0
          replies_24h := parse_int (get_first row ["replies_24h"]) 0
          views_24h := parse_int (get_first row ["views_24h"]) 0
          refresh_24h_at := r24
          refresh_24h_status := get_first row ["refresh_24h_status"]
          refresh_24h_delta_likes := parse_int (get_first row ["refresh_24h_delta_likes"]) 0
          refresh_24h_delta_reposts := parse_int (get_first row ["refresh_24h_delta_reposts", "refresh_24h_delta_retweets"]) 0
          refresh_24h_delta_replies := parse_int (get_first row ["refresh_24h_delta_replies"]) 0
          refresh_24h_delta_views := parse_int (get_first row ["refresh_24h_delta_views"]) 0
          discovered_at := disc
          last_seen_at := seen }

def import_posts (rows : List Row) (db : Db String PostPayload) : ImportState String PostPayload :=
  runImport "posts" postRow rows db

/-! ## `import_reports` -/

structure ReportPayload where
  reported_at : Option PyDateTime
  channel : Value
  summary : Value
  destination : Value

/-- The `reports` per-row try-block: `reported_at` is parsed before
the `status_id` emptiness check, so a missing timestamp is an error
even when `status_id` is also missing. -/
def reportRow (row : Row) : RowOutcome String ReportPayload :=
  let status_id := strippedStr (get_first row ["status_id"])
  match parse_timestamp (.value (get_first row ["reported_at", "created_at"])) true with
  | .error e => .err e
  | .ok reported_at =>
    if status_id = "" then .skip "missing status_id"
    else
      .put status_id
        { reported_at := reported_at
          channel := get_first row ["channel"]
          summary := get_first row ["summary"]
          destination := get_first row ["destination"] }

def import_reports (rows : List Row) (db : Db String ReportPayload) :
    ImportState String ReportPayload :=
  runImport "reports" reportRow rows db

/-! ## `import_pipeline_runs` -/

structure PipelineRunPayload where
  fetched_count : Int
  significant_count : Int
  reported_count : Int
  note : Value

/-- Python `str(get_first(row, "source") or "local-dispatcher").strip() or
"local-dispatcher"` — the source component of the unique key. -/
def pipeline_source (row : Row) : String :=
  let src := pyStrip (pyStr (pyOr (get_first row ["source"]) (.str "local-dispatcher")))
  if src = "" then "local-dispatcher" else src

/-- Unique key of `pipeline_runs`: `(run_at, mode, source)`. -/
def PRKey := Option PyDateTime × String × String

instance : DecidableEq PRKey :=
  inferInstanceAs (DecidableEq (Option PyDateTime × String × String))

/-- The `pipeline_runs` per-row try-block: `run_at` is parsed first
(its failure is the exception path), then the mode is normalized and
checked, then the row is upserted on `(run_at, mode, source)`. -/
def pipelineRunRow (row : Row) : RowOutcome PRKey PipelineRunPayload :=
  match parse_timestamp (.value (get_first row ["run_at", "created_at", "timestamp"])) true with
  | .error e => .err e
  | .ok run_at =>
    let mode := normalize_run_mode (get_first row ["mode"])
    let source := pipeline_source row
    if mode.getD "" = "" then .skip "invalid mode"
    else
      .put (run_at, mode.getD "", source)
        { fetched_count := parse_int (get_first row ["fetched_count"]) 0
          significant_count := parse_int (get_first row ["significant_count"]) 0
          reported_count := parse_int (get_first row ["reported_count"]) 0
          note := get_first row ["note"] }

def import_pipeline_runs (rows : List Row) (db : Db PRKey PipelineRunPayload) :
    ImportState PRKey PipelineRunPayload :=
  runImport "pipeline_runs" pipelineRunRow rows db

/-! ## `import_embeddings` -/

structure EmbeddingPayload where
  backend : String
  model : String
  dims : Int
  vector_json : String
  text_hash : String
  created_at : Option PyDateTime
  updated_at : Option PyDateTime

/-- The `embeddings` per-row try-block: the four required text fields
are checked first; then the timestamps, the vector normalization (its
`json.loads` can fail) and the dims fallback run inside the try. -/
def embeddingRow (row : Row) : RowOutcome String EmbeddingPayload :=
  let status_id := strippedStr (get_first row ["status_id"])
  let backend := strippedStr (get_first row ["backend"])
  let model := strippedStr (get_first row ["model"])
  let text_hash := strippedStr (get_first row ["text_hash"])
  if status_id = "" || backend = "" || model = "" || text_hash = "" then
    .skip "missing required embedding fields"
  else
    match (do
      let created ← parse_timestamp (.value (get_first row ["created_at"])) true
      let updated ← parse_timestamp (.value (get_first row ["updated_at", "created_at"])) true
      let vec ← normalize_vector_json (get_first row ["vector_json"])
      let vector_json := json_dumps vec
      let dims0 := parse_int (get_first row ["dims"]) 0
      let dims ← if dims0 ≤ 0 then
          (json_loads vector_json).map (fun (mv : Value) =>
            match mv with
            | .arr xs => (xs.length : Int)
            | _ => dims0)
        else Except.ok dims0
      Except.ok (created, updated, vector_json, dims)) with
    | .error e => .err e
    | .ok (created, updated, vector_json, dims) =>
      .put status_id
        { backend := backend
          model := model
          dims := dims
          vector_json := vector_json
          text_hash := text_hash
          created_at := created
          updated_at := updated }

def import_embeddings (rows : List Row) (db : Db String EmbeddingPayload) :
    ImportState String EmbeddingPayload :=
  runImport "embeddings" embeddingRow rows db

/-- The C5 scenario row. -/
def c5Row : Row :=
  [("status_id", .str "123"), ("url", .str "http://x/123"),
   ("author_handle", .str "@Foo"), ("likes", .str "10")]

example : postRow c5Row = .err "missing required timestamp" := by rfl

/-! ## `derive_snapshots`

The three `INSERT ... SELECT ... ON CONFLICT (status_id,
snapshot_type, snapshot_at) DO NOTHING` statements are modelled over
the posts table as a list of `(status_id, payload)` pairs (the
importer keeps `status_id` unique, but no proof below assumes it) and
the snapshots table as a list of rows.  Postgres fills the target
row-by-row, skipping any candidate whose key is already present,
including keys inserted earlier in the same statement. -/

structure SnapRow where
  status_id : String
  snapshot_type : String
  snapshot_at : Option PyDateTime
  likes : Int
  reposts : Int
  replies : Int
  views : Int
  source : String
  deriving DecidableEq, Repr

/-- The natural key `(status_id, snapshot_type, snapshot_at)`. -/
def snapKey (r : SnapRow) : String × String × Option PyDateTime :=
  (r.status_id, r.snapshot_type, r.snapshot_at)

/-- Insert one candidate unless its key is already present. -/
def insertSnap (acc : List SnapRow) (r : SnapRow) : List SnapRow :=
  if acc.any (fun r2 => snapKey r2 = snapKey r) then acc else acc ++ [r]

/-- One `INSERT ... SELECT ... ON CONFLICT DO NOTHING` statement. -/
def insertSnaps (acc : List SnapRow) (cands : List SnapRow) : List SnapRow :=
  cands.foldl insertSnap acc

/-- The `initial_capture` candidate of a post.  The importer writes the
metric columns as non-null integers, so `COALESCE(p.initial_likes,
p.likes, 0)` collapses to its first argument, and likewise below. -/
def initialCaptureRow (source : String) (p : String × PostPayload) : SnapRow :=
  { status_id := p.1, snapshot_type := "initial_capture", snapshot_at := p.2.discovered_at,
    likes := p.2.initial_likes, reposts := p.2.initial_reposts,
    replies := p.2.initial_replies, views := p.2.initial_views, source := source }

/-- The `latest_observed` candidate of a post. -/
def latestObservedRow (source : String) (p : String × PostPayload) : SnapRow :=
  { status_id := p.1, snapshot_type := "latest_observed", snapshot_at := p.2.last_seen_at,
    likes := p.2.likes, reposts := p.2.reposts,
    replies := p.2.replies, views := p.2.views, source := source }

/-- The `refresh_24h` candidate of a post (only generated under
`WHERE p.refresh_24h_at IS NOT NULL`). -/
def refresh24hRow (source : String) (p : String × PostPayload) : SnapRow :=
  { status_id := p.1, snapshot_type := "refresh_24h", snapshot_at := p.2.refresh_24h_at,
    likes := p.2.likes_24h, reposts := p.2.reposts_24h,
    replies := p.2.replies_24h, views := p.2.views_24h, source := source }

/-- Embedding of `derive_snapshots(cur, source)`: the three statements in order. -/
def derive_snapshots (source : String) (posts : List (String × PostPayload))
    (snaps : List SnapRow) : List SnapRow :=
  let s1 := insertSnaps snaps (posts.map (initialCaptureRow source))
  let s2 := insertSnaps s1 (posts.map (latestObservedRow source))
  insertSnaps s2 ((posts.filter (fun p => p.2.refresh_24h_at.isSome)).map (refresh24hRow source))

/-! ## `validate_counts.py` -/

/-- Function `parse_ts` of the validator duplicates the string path of
`parse_timestamp` with `required=False` and returns `.isoformat()` of
the UTC result; since `isoformat` is injective on UTC datetimes, the
result is modelled by the UTC datetime itself. -/
def parse_ts (value : Value) : Except String (Option PyDateTime) :=
  parse_timestamp (.value value) false

mutual

/-- Python `==` between two JSON-ish values (`True == 1` holds because
`bool` is an `int` subtype; numeric equality across `int`/`float` is
outside the modelled subset and no compared column mixes them). -/
def pyEq : Value → Value → Bool
  | .null, .null => true
  | .bool a, .bool b => a = b
  | .bool a, .int b => (if a then 1 else 0) = b
  | .int a, .bool b => a = (if b then 1 else 0)
  | .int a, .int b => a = b
  | .float a, .float b => a = b
  | .str a, .str b => a = b
  | .arr a, .arr b => pyEqList a b
  | .obj a, .obj b => pyEqFields a b
  | _, _ => false

def pyEqList : List Value → List Value → Bool
  | [], [] => true
  | a :: as2, b :: bs => pyEq a b && pyEqList as2 bs
  | _, _ => false

def pyEqFields : List (String × Value) → List (String × Value) → Bool
  | [], [] => true
  | (k1, a) :: as2, (k2, b) :: bs => k1 = k2 && pyEq a b && pyEqFields as2 bs
  | _, _ => false

end

/-- One row of the validator's destination query
`SELECT status_id, url, author_handle, body_text, is_significant,
discovered_at FROM posts`. -/
structure PgPostRow where
  status_id : String
  url : Value
  author_handle : Value
  body_text : Value
  is_significant : Bool
  discovered_at : Option PyDateTime

/-- Query `SELECT status_id FROM tweets WHERE status_id IS NOT NULL`,
stringified as the script does with `str(row[0])`. -/
def tweetIds (tweets : List Row) : List String :=
  tweets.filterMap (fun t =>
    match rowGet t "status_id" with
    | none => none
    | some .null => none
    | some v => some (pyStr v))

/-- Query `SELECT * FROM tweets WHERE status_id = ?` with the stringified id
(matching on the rendered id text). -/
def localMatches (t : Row) (id : String) : Bool :=
  match rowGet t "status_id" with
  | none => false
  | some .null => false
  | some v => pyStr v = id

/-- The names of the spot-checked fields that disagree for one sampled
post (the script stores `{field, local, postgres}` dicts; the names
identify them). -/
def mismatchedFields (localRow : Row) (remote : PgPostRow) : Except String (List String) := do
  let localUrl := get_first localRow ["url", "status_url", "tweet_url"]
  let localHandle := normalize_handle (get_first localRow ["author_handle", "handle", "author", "username"])
  let localBody := get_first localRow ["body_text", "text", "tweet_text", "content"]
  let localSig := truthy (get_first localRow ["is_significant", "significant"])
  let localDiscovered ← parse_ts (get_first localRow ["discovered_at", "captured_at", "created_at"])
  let remoteDiscovered := remote.discovered_at.map astimezoneUTC
  Except.ok <|
    (if !pyEq localUrl remote.url then ["url"] else []) ++
    (if localHandle ≠ normalize_handle remote.author_handle then ["author_handle"] else []) ++
    (if !pyEq localBody remote.body_text then ["body_text"] else []) ++
    (if localSig ≠ remote.is_significant then ["is_significant"] else []) ++
    (if localDiscovered ≠ remoteDiscovered then ["discovered_at"] else [])

/-- The per-id loop of `compare_random_posts`: ids absent from the
destination accumulate under `missing_in_pg`, present ids with
disagreeing fields under `mismatches`. -/
def spotCheckLoop (tweets : List Row) (posts : List PgPostRow) :
    List String → Except String (List String × List (String × List String))
  | [] => .ok ([], [])
  | id :: rest =>
    match posts.find? (fun r => r.status_id = id) with
    | none =>
      (spotCheckLoop tweets posts rest).map (fun mm => (id :: mm.1, mm.2))
    | some remote => do
      let localRow := ((tweets.find? (fun t => localMatches t id)).getD [])
      let flds ← mismatchedFields localRow remote
      let mm ← spotCheckLoop tweets posts rest
      Except.ok (mm.1, if flds.isEmpty then mm.2 else (id, flds) :: mm.2)

/-- Result of `compare_random_posts`. -/
structure SpotCheck where
  requested : Nat
  checked : Nat
  missing_in_pg : List String
  mismatches : List (String × List String)

/-- Python `compare_random_posts(sqlite, pg, sample_size)`.  `random.sample`
is nondeterministic, so the drawn ids are a parameter (`sampledIds`);
when the sample size covers every id the script checks them all. -/
def compare_random_posts (tweets : List Row) (posts : List PgPostRow)
    (sample_size : Nat) (sampledIds : List String) : Except String SpotCheck :=
  if sample_size = 0 then .ok ⟨0, 0, [], []⟩
  else
    let ids0 := tweetIds tweets
    if ids0.isEmpty then .ok ⟨sample_size, 0, [], []⟩
    else
      let ids := if sample_size < ids0.length then sampledIds else ids0
      (spotCheckLoop tweets posts ids).map (fun mm =>
        ⟨sample_size, ids.length, mm.1, mm.2⟩)

/-- The sqlite-side snapshot as the validator reads it: the `tweets`
rows in full (for the spot check), the other tables only through
`COUNT(*)`. -/
structure SqliteState where
  tweets : List Row
  reports_count : Nat
  watch_accounts_count : Nat
  runs_count : Nat
  embeddings_count : Nat

/-- The destination as the validator reads it: the `posts` projection
in full, the other tables only through `COUNT(*)`. -/
structure PgState where
  posts : List PgPostRow
  reports_count : Nat
  watch_accounts_count : Nat
  pipeline_runs_count : Nat
  embeddings_count : Nat
  snapshots_count : Nat

/-- The per-table `(sqlite count, postgres count)` pairs of the
report's `counts` section (the snapshot table carries no source
count). -/
def countsReport (sq : SqliteState) (pg : PgState) : List (String × Nat × Nat) :=
  [("tweets", sq.tweets.length, pg.posts.length),
   ("reports", sq.reports_count, pg.reports_count),
   ("watch_accounts", sq.watch_accounts_count, pg.watch_accounts_count),
   ("runs", sq.runs_count, pg.pipeline_runs_count),
   ("tweet_embeddings", sq.embeddings_count, pg.embeddings_count)]

/-- Python `main()` of `validate_counts.py` after connection setup: builds
the report, then returns 2 when the spot check found mismatches or
destination-missing ids and 0 otherwise.  The count deltas are
reported but take no part in the exit status. -/
def validate_counts_main (sq : SqliteState) (pg : PgState)
    (sample_size : Nat) (sampledIds : List String) :
    Except String ((List (String × Nat × Nat)) × SpotCheck × Nat) :=
  match compare_random_posts sq.tweets pg.posts sample_size sampledIds with
  | .error e => .error e
  | .ok spot =>
    .ok (countsReport sq pg, spot,
      if !spot.mismatches.isEmpty || !spot.missing_in_pg.isEmpty then 2 else 0)

/-! ## Generic facts about the import loop -/

section ImportLemmas

variable {K P : Type}

/-- The row's try-block succeeds and reaches the upsert. -/
def isPutRow (f : Row → RowOutcome K P) (r : Row) : Bool :=
  match f r with
  | .put _ _ => true
  | _ => false

/-- The row fails an explicit required-field check. -/
def isSkipRow (f : Row → RowOutcome K P) (r : Row) : Bool :=
  match f r with
  | .skip _ => true
  | _ => false

/-- The row's try-block raises. -/
def isErrRow (f : Row → RowOutcome K P) (r : Row) : Bool :=
  match f r with
  | .err _ => true
  | _ => false

def countPutRows (f : Row → RowOutcome K P) (rows : List Row) : Nat :=
  rows.countP (isPutRow f)

def countSkipRows (f : Row → RowOutcome K P) (rows : List Row) : Nat :=
  rows.countP (isSkipRow f)

def countErrRows (f : Row → RowOutcome K P) (rows : List Row) : Nat :=
  rows.countP (isErrRow f)

theorem countRows_total (f : Row → RowOutcome K P) (rows : List Row) :
    countPutRows f rows + countSkipRows f rows + countErrRows f rows = rows.length := by
  induction rows with
  | nil => rfl
  | cons r rs ih =>
    simp only [countPutRows, countSkipRows, countErrRows, List.countP_cons, List.length_cons] at *
    rcases hr : f r with ⟨reason⟩ | ⟨reason⟩ | ⟨k, p⟩ <;>
      simp [isPutRow, isSkipRow, isErrRow, hr] <;> omega

variable [DecidableEq K]

theorem runFrom_cons (t : String) (f : Row → RowOutcome K P) (i : Nat) (r : Row)
    (rs : List Row) (st : ImportState K P) :
    runFrom t f i (r :: rs) st = runFrom t f (i + 1) rs (importStep t f st i r) := rfl

theorem runFrom_counters (t : String) (f : Row → RowOutcome K P) (rows : List Row) :
    ∀ (i : Nat) (st : ImportState K P),
    (runFrom t f i rows st).counters.received = st.counters.received + rows.length ∧
    (runFrom t f i rows st).counters.skipped = st.counters.skipped + countSkipRows f rows ∧
    (runFrom t f i rows st).counters.errors
      = st.counters.errors + countSkipRows f rows + countErrRows f rows ∧
    (runFrom t f i rows st).counters.inserted + (runFrom t f i rows st).counters.updated
      = st.counters.inserted + st.counters.updated + countPutRows f rows := by
  induction rows with
  | nil =>
    intro i st
    simp [runFrom, countSkipRows, countErrRows, countPutRows]
  | cons r rs ih =>
    intro i st
    obtain ⟨h1, h2, h3, h4⟩ := ih (i + 1) (importStep t f st i r)
    rw [runFrom_cons] at *
    simp only [countSkipRows, countErrRows, countPutRows, List.countP_cons] at *
    rcases hr : f r with ⟨reason⟩ | ⟨reason⟩ | ⟨k, p⟩
    · have hs : isSkipRow f r = true := by simp [isSkipRow, hr]
      have hre : isErrRow f r = false := by simp [isErrRow, hr]
      have hp : isPutRow f r = false := by simp [isPutRow, hr]
      simp only [importStep, hr] at h1 h2 h3 h4 ⊢
      simp [hs, hre, hp, h1, h2, h3, h4]
      omega
    · have hs : isSkipRow f r = false := by simp [isSkipRow, hr]
      have hre : isErrRow f r = true := by simp [isErrRow, hr]
      have hp : isPutRow f r = false := by simp [isPutRow, hr]
      simp only [importStep, hr] at h1 h2 h3 h4 ⊢
      simp [hs, hre, hp, h1, h2, h3, h4]
      omega
    · have hs : isSkipRow f r = false := by simp [isSkipRow, hr]
      have hre : isErrRow f r = false := by simp [isErrRow, hr]
      have hp : isPutRow f r = true := by simp [isPutRow, hr]
      simp only [importStep, hr] at h1 h2 h3 h4
      simp only [importStep, hr] at h1 h2 h3 h4 ⊢
      rcases hdb : st.db k with _ | v <;>
        · simp only [upsert, hdb, Option.isNone_none, Option.isNone_some] at h1 h2 h3 h4 ⊢
          simp [hs, hre, hp] at h1 h2 h3 h4 ⊢
          omega

/-- The reject-log entries a run appends, in order. -/
def expectedRejects (f : Row → RowOutcome K P) (t : String) : Nat → List Row → List RejectEntry
  | _, [] => []
  | i, r :: rs =>
    (match f r with
     | .skip reason => [⟨t, i, reason, r⟩]
     | .err reason => [⟨t, i, reason, r⟩]
     | .put _ _ => []) ++ expectedRejects f t (i + 1) rs

theorem runFrom_rejects (t : String) (f : Row → RowOutcome K P) (rows : List Row) :
    ∀ (i : Nat) (st : ImportState K P),
    (runFrom t f i rows st).rejects = st.rejects ++ expectedRejects f t i rows := by
  induction rows with
  | nil => intro i st; simp [runFrom, expectedRejects]
  | cons r rs ih =>
    intro i st
    rw [runFrom_cons, ih]
    rcases hr : f r with ⟨reason⟩ | ⟨reason⟩ | ⟨k, p⟩ <;>
      simp [importStep, hr, expectedRejects, upsert]

/-- The payload of the last successful row writing key `k`, if any. -/
def lastPut (f : Row → RowOutcome K P) : List Row → K → Option P
  | [], _ => none
  | r :: rs, k =>
    match lastPut f rs k with
    | some p => some p
    | none =>
      match f r with
      | .put k2 p => if k2 = k then some p else none
      | _ => none

theorem runFrom_db (t : String) (f : Row → RowOutcome K P) (rows : List Row) :
    ∀ (i : Nat) (st : ImportState K P) (k : K),
    (runFrom t f i rows st).db k =
      match lastPut f rows k with
      | some p => some p
      | none => st.db k := by
  induction rows with
  | nil => intro i st k; rfl
  | cons r rs ih =>
    intro i st k
    rw [runFrom_cons, ih (i + 1) (importStep t f st i r) k]
    rcases hl : lastPut f rs k with _ | p
    · rcases hr : f r with ⟨reason⟩ | ⟨reason⟩ | ⟨k2, p2⟩
      · simp [importStep, hr, lastPut, hl]
      · simp [importStep, hr, lastPut, hl]
      · simp only [importStep, hr, upsert, lastPut, hl]
        by_cases hk : k2 = k
        · subst hk; simp
        · have hk2 : ¬k = k2 := fun h => hk h.symm
          simp [hk, hk2]
    · simp [lastPut, hl]

theorem lastPut_isSome_of_mem (f : Row → RowOutcome K P) (rows : List Row) (r : Row)
    (k : K) (p : P) (hmem : r ∈ rows) (hput : f r = .put k p) :
    (lastPut f rows k).isSome := by
  induction rows with
  | nil => cases hmem
  | cons r2 rs ih =>
    rcases List.mem_cons.mp hmem with h | h
    · subst h
      rcases hl : lastPut f rs k with _ | p2 <;> simp [lastPut, hl, hput]
    · have := ih h
      rcases hl : lastPut f rs k with _ | p2
      · rw [hl] at this; cases this
      · simp [lastPut, hl]

theorem runFrom_all_updates (t : String) (f : Row → RowOutcome K P) (rows : List Row) :
    ∀ (i : Nat) (st : ImportState K P),
    (∀ r ∈ rows, ∀ k p, f r = .put k p → (st.db k).isSome) →
    (runFrom t f i rows st).counters.inserted = st.counters.inserted := by
  induction rows with
  | nil => intro i st _; rfl
  | cons r rs ih =>
    intro i st hpre
    rw [runFrom_cons]
    rcases hr : f r with ⟨reason⟩ | ⟨reason⟩ | ⟨k, p⟩
    · rw [ih]
      · simp [importStep, hr]
      · intro r2 hm k2 p2 hp2
        have : (st.db k2).isSome := hpre r2 (List.mem_cons_of_mem _ hm) k2 p2 hp2
        simpa [importStep, hr] using this
    · rw [ih]
      · simp [importStep, hr]
      · intro r2 hm k2 p2 hp2
        have : (st.db k2).isSome := hpre r2 (List.mem_cons_of_mem _ hm) k2 p2 hp2
        simpa [importStep, hr] using this
    · have hsome : (st.db k).isSome := hpre r (List.mem_cons_self r rs) k p hr
      have hin : (st.db k).isNone = false := by
        rcases h : st.db k with _ | v
        · rw [h] at hsome; cases hsome
        · rfl
      rw [ih]
      · simp [importStep, hr, upsert, hin]
      · intro r2 hm k2 p2 hp2
        have h2 : (st.db k2).isSome := hpre r2 (List.mem_cons_of_mem _ hm) k2 p2 hp2
        simp only [importStep, hr, upsert]
        by_cases hk : k2 = k <;> simp [hk, h2]

/-- The final destination state of a full import: the last write per
key, over the initial state. -/
theorem runImport_db (t : String) (f : Row → RowOutcome K P) (rows : List Row)
    (db : Db K P) (k : K) :
    (runImport t f rows db).db k =
      match lastPut f rows k with
      | some p => some p
      | none => db k :=
  runFrom_db t f rows 1 ⟨{}, db, []⟩ k

theorem runImport_counters (t : String) (f : Row → RowOutcome K P) (rows : List Row)
    (db : Db K P) :
    (runImport t f rows db).counters.received = rows.length ∧
    (runImport t f rows db).counters.skipped = countSkipRows f rows ∧
    (runImport t f rows db).counters.errors = countSkipRows f rows + countErrRows f rows ∧
    (runImport t f rows db).counters.inserted + (runImport t f rows db).counters.updated
      = countPutRows f rows := by
  have h := runFrom_counters t f rows 1 ⟨{}, db, []⟩
  simpa [runImport] using h

/-- The counter identity every importer actually maintains: `log_reject`
increments `errors` for skipped rows too, so `errors` absorbs every
rejected row and `received = inserted + updated + errors` with
`skipped ≤ errors`. -/
theorem runImport_invariant (t : String) (f : Row → RowOutcome K P) (rows : List Row)
    (db : Db K P) :
    (runImport t f rows db).counters.received
      = (runImport t f rows db).counters.inserted + (runImport t f rows db).counters.updated
        + (runImport t f rows db).counters.errors ∧
    (runImport t f rows db).counters.skipped ≤ (runImport t f rows db).counters.errors := by
  obtain ⟨h1, h2, h3, h4⟩ := runImport_counters t f rows db
  have := countRows_total f rows
  omega

/-- Replaying the same rows against the state the first run left:
no destination change, nothing newly inserted, every previously
written row counted as an update, rejections identical. -/
theorem runImport_idem (t : String) (f : Row → RowOutcome K P) (rows : List Row)
    (db : Db K P) :
    (runImport t f rows ((runImport t f rows db).db)).db = (runImport t f rows db).db ∧
    (runImport t f rows ((runImport t f rows db).db)).counters.inserted = 0 ∧
    (runImport t f rows ((runImport t f rows db).db)).counters.updated
      = (runImport t f rows db).counters.inserted + (runImport t f rows db).counters.updated ∧
    (runImport t f rows ((runImport t f rows db).db)).counters.received
      = (runImport t f rows db).counters.received ∧
    (runImport t f rows ((runImport t f rows db).db)).counters.skipped
      = (runImport t f rows db).counters.skipped ∧
    (runImport t f rows ((runImport t f rows db).db)).counters.errors
      = (runImport t f rows db).counters.errors := by
  have hpre : ∀ r ∈ rows, ∀ k p, f r = .put k p → (((runImport t f rows db).db) k).isSome := by
    intro r hm k p hput
    rw [runImport_db]
    rcases hl : lastPut f rows k with _ | p2
    · have := lastPut_isSome_of_mem f rows r k p hm hput
      rw [hl] at this; cases this
    · rfl
  obtain ⟨a1, a2, a3, a4⟩ := runImport_counters t f rows db
  obtain ⟨b1, b2, b3, b4⟩ := runImport_counters t f rows ((runImport t f rows db).db)
  have hins : (runImport t f rows ((runImport t f rows db).db)).counters.inserted = 0 :=
    runFrom_all_updates t f rows 1 ⟨{}, (runImport t f rows db).db, []⟩ hpre
  refine ⟨?_, hins, by omega, by omega, by omega, by omega⟩
  funext k
  rw [runImport_db, runImport_db]
  rcases hl : lastPut f rows k with _ | p <;> simp

end ImportLemmas

/-! ## Claim C1: the counter balance equation -/

/-- A watch_accounts row with a valid timestamp but no tier: it hits
the explicit required-field check and is skipped. -/
def waMissingTierRow : Row :=
  [("handle", .str "@foo"), ("added_at", .str "2024-01-01T00:00:00Z")]

/-- C1, counterexample: the claimed equation
`received = inserted + updated + skipped + errors` fails on any
skipped row, because the skip path increments `skipped` and then calls
`log_reject`, which increments `errors` as well: one skipped
watch_accounts row yields `received = 1` but
`inserted + updated + skipped + errors = 2`. -/
theorem claim_C1_counterexample :
    ¬ ((import_watch_accounts [waMissingTierRow] emptyDb).counters.received
        = (import_watch_accounts [waMissingTierRow] emptyDb).counters.inserted
          + (import_watch_accounts [waMissingTierRow] emptyDb).counters.updated
          + (import_watch_accounts [waMissingTierRow] emptyDb).counters.skipped
          + (import_watch_accounts [waMissingTierRow] emptyDb).counters.errors) := by
  intro h
  exact absurd h (by decide)

/-- C1 (amended): for every table importer and every input sequence of
rows, the returned counters satisfy
`received = inserted + updated + errors` and `skipped ≤ errors`:
each received row is counted in exactly one of inserted, updated or
errors, and skipped rows are additionally double-counted in errors
(`log_reject` runs on the skip path too). -/
theorem claim_C1_amended :
    (∀ (rows : List Row) (db : Db String WAPayload),
      (import_watch_accounts rows db).counters.received
        = (import_watch_accounts rows db).counters.inserted
          + (import_watch_accounts rows db).counters.updated
          + (import_watch_accounts rows db).counters.errors ∧
      (import_watch_accounts rows db).counters.skipped
        ≤ (import_watch_accounts rows db).counters.errors) ∧
    (∀ (rows : List Row) (db : Db String PostPayload),
      (import_posts rows db).counters.received
        = (import_posts rows db).counters.inserted
          + (import_posts rows db).counters.updated
          + (import_posts rows db).counters.errors ∧
      (import_posts rows db).counters.skipped
        ≤ (import_posts rows db).counters.errors) ∧
    (∀ (rows : List Row) (db : Db String ReportPayload),
      (import_reports rows db).counters.received
        = (import_reports rows db).counters.inserted
          + (import_reports rows db).counters.updated
          + (import_reports rows db).counters.errors ∧
      (import_reports rows db).counters.skipped
        ≤ (import_reports rows db).counters.errors) ∧
    (∀ (rows : List Row) (db : Db PRKey PipelineRunPayload),
      (import_pipeline_runs rows db).counters.received
        = (import_pipeline_runs rows db).counters.inserted
          + (import_pipeline_runs rows db).counters.updated
          + (import_pipeline_runs rows db).counters.errors ∧
      (import_pipeline_runs rows db).counters.skipped
        ≤ (import_pipeline_runs rows db).counters.errors) ∧
    (∀ (rows : List Row) (db : Db String EmbeddingPayload),
      (import_embeddings rows db).counters.received
        = (import_embeddings rows db).counters.inserted
          + (import_embeddings rows db).counters.updated
          + (import_embeddings rows db).counters.errors ∧
      (import_embeddings rows db).counters.skipped
        ≤ (import_embeddings rows db).counters.errors) :=
  ⟨fun rows db => runImport_invariant "watch_accounts" watchAccountRow rows db,
   fun rows db => runImport_invariant "posts" postRow rows db,
   fun rows db => runImport_invariant "reports" reportRow rows db,
   fun rows db => runImport_invariant "pipeline_runs" pipelineRunRow rows db,
   fun rows db => runImport_invariant "embeddings" embeddingRow rows db⟩

/-! ## Claim C2: idempotence of re-import -/

/-- C2: replaying any importer's input against the destination state
the first run left changes no destination row, newly inserts nothing,
and counts every previously inserted-or-updated row as updated; in
particular one valid watch_accounts line imported twice yields
`{received 1, inserted 1}` then `{received 1, updated 1}`. -/
theorem claim_C2 :
    (∀ (rows : List Row) (db : Db String WAPayload),
      (import_watch_accounts rows (import_watch_accounts rows db).db).db
        = (import_watch_accounts rows db).db ∧
      (import_watch_accounts rows (import_watch_accounts rows db).db).counters.inserted = 0 ∧
      (import_watch_accounts rows (import_watch_accounts rows db).db).counters.updated
        = (import_watch_accounts rows db).counters.inserted
          + (import_watch_accounts rows db).counters.updated) ∧
    (∀ (rows : List Row) (db : Db String PostPayload),
      (import_posts rows (import_posts rows db).db).db = (import_posts rows db).db ∧
      (import_posts rows (import_posts rows db).db).counters.inserted = 0 ∧
      (import_posts rows (import_posts rows db).db).counters.updated
        = (import_posts rows db).counters.inserted + (import_posts rows db).counters.updated) ∧
    (∀ (rows : List Row) (db : Db String ReportPayload),
      (import_reports rows (import_reports rows db).db).db = (import_reports rows db).db ∧
      (import_reports rows (import_reports rows db).db).counters.inserted = 0 ∧
      (import_reports rows (import_reports rows db).db).counters.updated
        = (import_reports rows db).counters.inserted
          + (import_reports rows db).counters.updated) ∧
    (∀ (rows : List Row) (db : Db PRKey PipelineRunPayload),
      (import_pipeline_runs rows (import_pipeline_runs rows db).db).db
        = (import_pipeline_runs rows db).db ∧
      (import_pipeline_runs rows (import_pipeline_runs rows db).db).counters.inserted = 0 ∧
      (import_pipeline_runs rows (import_pipeline_runs rows db).db).counters.updated
        = (import_pipeline_runs rows db).counters.inserted
          + (import_pipeline_runs rows db).counters.updated) ∧
    (∀ (rows : List Row) (db : Db String EmbeddingPayload),
      (import_embeddings rows (import_embeddings rows db).db).db
        = (import_embeddings rows db).db ∧
      (import_embeddings rows (import_embeddings rows db).db).counters.inserted = 0 ∧
      (import_embeddings rows (import_embeddings rows db).db).counters.updated
        = (import_embeddings rows db).counters.inserted
          + (import_embeddings rows db).counters.updated) ∧
    (import_watch_accounts [waSampleRow] emptyDb).counters
      = { received := 1, inserted := 1, updated := 0, skipped := 0, errors := 0 } ∧
    (import_watch_accounts [waSampleRow]
        (import_watch_accounts [waSampleRow] emptyDb).db).counters
      = { received := 1, inserted := 0, updated := 1, skipped := 0, errors := 0 } := by
  refine ⟨?_, ?_, ?_, ?_, ?_, rfl, rfl⟩ <;>
    · intro rows db
      obtain ⟨h1, h2, h3, _, _, _⟩ := runImport_idem _ _ rows db
      exact ⟨h1, h2, h3⟩

/-! ## Claim C4: rejected rows -/

/-- A watch_accounts row with handle and tier but no timestamp: the
required-timestamp parse raises inside the try-block. -/
def waMissingTsRow : Row :=
  [("handle", .str "@foo"), ("tier", .str "teammate")]

/-- C4, counterexample: a row failing the explicit required-field
check increments `errors` too (`log_reject` runs on the skip path),
contradicting "increments the skipped counter (not errors)"; and a row
with a missing required timestamp increments only `errors`, never
`skipped`, contradicting the claim that such rows are skipped. -/
theorem claim_C4_counterexample :
    (import_watch_accounts [waMissingTierRow] emptyDb).counters.skipped = 1 ∧
    (import_watch_accounts [waMissingTierRow] emptyDb).counters.errors = 1 ∧
    (import_watch_accounts [waMissingTsRow] emptyDb).counters.skipped = 0 ∧
    (import_watch_accounts [waMissingTsRow] emptyDb).counters.errors = 1 :=
  ⟨rfl, rfl, rfl, rfl⟩

/-- C4 (amended): every importer processes all rows (no exception
escapes the per-row boundary), every rejected row — skipped or
errored — is appended to the reject log with the original raw row and
a reason, rows failing an explicit required-field check count in both
`skipped` and `errors`, and rows whose required timestamp is
absent/invalid raise inside the try-block and count in `errors`
only. -/
theorem claim_C4_amended :
    (∀ (rows : List Row) (db : Db String WAPayload),
      (import_watch_accounts rows db).counters.received = rows.length ∧
      (import_watch_accounts rows db).counters.skipped = countSkipRows watchAccountRow rows ∧
      (import_watch_accounts rows db).counters.errors
        = countSkipRows watchAccountRow rows + countErrRows watchAccountRow rows ∧
      (import_watch_accounts rows db).rejects
        = expectedRejects watchAccountRow "watch_accounts" 1 rows) ∧
    (∀ (rows : List Row) (db : Db String PostPayload),
      (import_posts rows db).counters.received = rows.length ∧
      (import_posts rows db).counters.skipped = countSkipRows postRow rows ∧
      (import_posts rows db).counters.errors
        = countSkipRows postRow rows + countErrRows postRow rows ∧
      (import_posts rows db).rejects = expectedRejects postRow "posts" 1 rows) ∧
    (∀ (rows : List Row) (db : Db String ReportPayload),
      (import_reports rows db).counters.received = rows.length ∧
      (import_reports rows db).counters.skipped = countSkipRows reportRow rows ∧
      (import_reports rows db).counters.errors
        = countSkipRows reportRow rows + countErrRows reportRow rows ∧
      (import_reports rows db).rejects = expectedRejects reportRow "reports" 1 rows) ∧
    (∀ (rows : List Row) (db : Db PRKey PipelineRunPayload),
      (import_pipeline_runs rows db).counters.received = rows.length ∧
      (import_pipeline_runs rows db).counters.skipped = countSkipRows pipelineRunRow rows ∧
      (import_pipeline_runs rows db).counters.errors
        = countSkipRows pipelineRunRow rows + countErrRows pipelineRunRow rows ∧
      (import_pipeline_runs rows db).rejects
        = expectedRejects pipelineRunRow "pipeline_runs" 1 rows) ∧
    (∀ (rows : List Row) (db : Db String EmbeddingPayload),
      (import_embeddings rows db).counters.received = rows.length ∧
      (import_embeddings rows db).counters.skipped = countSkipRows embeddingRow rows ∧
      (import_embeddings rows db).counters.errors
        = countSkipRows embeddingRow rows + countErrRows embeddingRow rows ∧
      (import_embeddings rows db).rejects
        = expectedRejects embeddingRow "embeddings" 1 rows) := by
  refine ⟨?_, ?_, ?_, ?_, ?_⟩ <;>
    · intro rows db
      obtain ⟨h1, h2, h3, _⟩ := runImport_counters _ _ rows db
      refine ⟨h1, h2, h3, ?_⟩
      simpa [runImport] using runFrom_rejects _ _ rows 1 ⟨{}, db, []⟩

/-! ## Claim C5: the missing-timestamp posts scenario -/

/-- C5: the posts line `{"status_id":"123","url":"http://x/123",
"author_handle":"@Foo","likes":"10"}` with no discovered_at (or alias)
is rejected for a missing required timestamp: `errors` is incremented,
`inserted` is not, the original row is written to the reject log, and
the destination is untouched. -/
theorem claim_C5 :
    (import_posts [c5Row] emptyDb).counters
      = { received := 1, inserted := 0, updated := 0, skipped := 0, errors := 1 } ∧
    (import_posts [c5Row] emptyDb).rejects
      = [⟨"posts", 1, "missing required timestamp", c5Row⟩] ∧
    (∀ k, (import_posts [c5Row] emptyDb).db k = none) :=
  ⟨rfl, rfl, fun _ => rfl⟩

/-! ## Claim C6: handle normalization -/

theorem data_mk (l : List Char) : (String.mk l).data = l := rfl

theorem toNat_ofNat_small (n : Nat) (h : n < 55296) : (Char.ofNat n).toNat = n := by
  rw [Char.ofNat, dif_pos (Or.inl h)]
  rfl

/-- Python `Char.toLower` never produces `'@'` from another character. -/
theorem toLower_eq_at {c : Char} (h : c.toLower = '@') : c = '@' := by
  unfold Char.toLower at h
  dsimp only at h
  split at h
  · rename_i hcond
    have h1 := congrArg Char.toNat h
    rw [toNat_ofNat_small (c.toNat + 32) (by omega)] at h1
    have h64 : Char.toNat '@' = 64 := rfl
    exact absurd h1 (by omega)
  · exact h

theorem head_dropWhile_not (p : Char → Bool) (l : List Char) (c : Char)
    (h : (l.dropWhile p).head? = some c) : p c = false := by
  induction l with
  | nil => cases h
  | cons a l ih =>
    by_cases hp : p a = true
    · rw [List.dropWhile_cons_of_pos hp] at h
      exact ih h
    · rw [List.dropWhile_cons_of_neg hp] at h
      cases h
      simpa using hp

/-- Any present result of `normalize_handle` is the lower-cased,
fully-`@`-stripped, whitespace-trimmed rendering of the input. -/
theorem normalize_handle_eq (v : Value) (h : String) (hv : normalize_handle v = some h) :
    h = pyLower (lstripAt (pyStrip (pyStr v))) := by
  cases v <;>
    first
      | (cases hv <;> rfl)
      | (simp only [normalize_handle] at hv
         split at hv
         · cases hv
         · exact (Option.some.inj hv).symm)

/-- C6, counterexample: `normalize_handle` uses `lstrip("@")`, which
removes every leading `'@'`, so `"@@Foo"` normalizes to `"foo"`, which
does not begin with `'@'` — the claim predicted a value still
beginning with `'@'`. -/
theorem claim_C6_counterexample :
    normalize_handle (.str "@@Foo") = some "foo" ∧ "foo".data.head? ≠ some '@' :=
  ⟨rfl, by decide⟩

/-- C6 (amended): handle normalization trims surrounding whitespace,
strips every leading `'@'` character and lower-cases the remainder;
an absent input or one empty after whitespace-trimming is `None`, the
emptiness check precedes the `'@'`-stripping (so `"@"` yields the
empty string, not `None`), and no returned handle begins with
`'@'`. -/
theorem claim_C6_amended :
    normalize_handle .null = none ∧
    (∀ s : String, pyStrip s = "" → normalize_handle (.str s) = none) ∧
    (∀ s : String, pyStrip s ≠ "" →
      normalize_handle (.str s) = some (pyLower (lstripAt (pyStrip s)))) ∧
    (∀ (v : Value) (h : String), normalize_handle v = some h → h.data.head? ≠ some '@') ∧
    normalize_handle (.str "@") = some "" := by
  refine ⟨rfl, ?_, ?_, ?_, rfl⟩
  · intro s hs
    simp only [normalize_handle, pyStr]
    rw [if_pos hs]
  · intro s hs
    simp only [normalize_handle, pyStr]
    rw [if_neg hs]
  · intro v h hv hhead
    rw [normalize_handle_eq v h hv] at hhead
    simp only [pyLower, lstripAt, data_mk, List.head?_map] at hhead
    rcases hm : ((pyStrip (pyStr v)).data.dropWhile (· = '@')).head? with _ | c
    · rw [hm] at hhead; cases hhead
    · rw [hm] at hhead
      have hc : c.toLower = '@' := Option.some.inj hhead
      have h1 := head_dropWhile_not _ _ _ hm
      have h2 : c = '@' := toLower_eq_at hc
      simp [h2] at h1

/-- Witness for C6 (amended): the universally quantified parts applied
at concrete inputs. -/
theorem claim_C6_amended_witness :
    (pyStrip "   " = "" ∧ normalize_handle (.str "   ") = none) ∧
    (pyStrip " @@Foo " ≠ "" ∧
      normalize_handle (.str " @@Foo ") = some (pyLower (lstripAt (pyStrip " @@Foo ")))) ∧
    (normalize_handle (.str "@X") = some "x" ∧ "x".data.head? ≠ some '@') :=
  ⟨⟨rfl, claim_C6_amended.2.1 "   " rfl⟩,
   ⟨by decide, claim_C6_amended.2.2.1 " @@Foo " (by decide)⟩,
   ⟨rfl, claim_C6_amended.2.2.2.1 (.str "@X") "x" rfl⟩⟩

/-! ## Claim C9: run-mode normalization -/

/-- A pipeline_runs line with mode "refresh-24h". -/
def prModeRow : Row :=
  [("run_at", .str "2024-01-01T00:00:00Z"), ("mode", .str "refresh-24h")]

/-- The unique key that line upserts: canonical mode, default
source. -/
def prModeKey : PRKey :=
  (some ⟨1704067200000000, some 0⟩, "refresh24h", "local-dispatcher")

/-- C9: run-mode normalization lower-cases, maps the spelling variants
"refresh-24h" and "refresh_24h" to "refresh24h", and accepts the
result only when it is in {priority, discovery, both, refresh24h,
manual} (absent otherwise); a pipeline_runs line with mode
"refresh-24h" is upserted under mode "refresh24h". -/
theorem claim_C9 :
    normalize_run_mode (.str "refresh-24h") = some "refresh24h" ∧
    normalize_run_mode (.str "refresh_24h") = some "refresh24h" ∧
    (∀ (v : Value) (m : String), normalize_run_mode v = some m → m ∈ VALID_RUN_MODES) ∧
    (∀ s : String, runModeMapGet (pyLower (pyStrip s)) ∉ VALID_RUN_MODES →
      normalize_run_mode (.str s) = none) ∧
    (import_pipeline_runs [prModeRow] emptyDb).db prModeKey
      = some { fetched_count := 0, significant_count := 0, reported_count := 0,
               note := .null } ∧
    (import_pipeline_runs [prModeRow] emptyDb).counters
      = { received := 1, inserted := 1 } := by
  refine ⟨rfl, rfl, ?_, ?_, rfl, rfl⟩
  · intro v m hv
    cases v <;> first
      | cases hv
      | (simp only [normalize_run_mode] at hv
         split at hv
         · rename_i hmem
           exact (Option.some.inj hv) ▸ hmem
         · cases hv)
  · intro s hs
    simp only [normalize_run_mode, pyStr]
    rw [if_neg hs]

/-- Witness for C9: the quantified parts applied at concrete
inputs. -/
theorem claim_C9_witness :
    ("refresh24h" ∈ VALID_RUN_MODES) ∧
    (runModeMapGet (pyLower (pyStrip "weekly")) ∉ VALID_RUN_MODES ∧
      normalize_run_mode (.str "weekly") = none) :=
  ⟨claim_C9.2.2.1 (.str "refresh-24h") "refresh24h" rfl,
   by decide,
   claim_C9.2.2.2.1 "weekly" (by decide)⟩

/-! ## Claim C10: the pipeline_runs default source -/

/-- C10: a pipeline_runs row whose source is absent/null or
whitespace-only gets the literal "local-dispatcher" as the source
component used in the (run_at, mode, source) unique key. -/
theorem claim_C10 :
    (∀ row : Row, get_first row ["source"] = .null →
      pipeline_source row = "local-dispatcher") ∧
    (∀ (row : Row) (s : String), get_first row ["source"] = .str s → pyStrip s = "" →
      pipeline_source row = "local-dispatcher") ∧
    (∀ (row : Row) (k : PRKey) (p : PipelineRunPayload),
      pipelineRunRow row = .put k p → k.2.2 = pipeline_source row) := by
  refine ⟨?_, ?_, ?_⟩
  · intro row h
    simp only [pipeline_source, h]
    rfl
  · intro row s h hs
    by_cases hse : s = ""
    · subst hse
      simp only [pipeline_source, h]
      rfl
    · have ht : truthy (.str s) = true := by simp [truthy, hse]
      simp [pipeline_source, h, pyOr, ht, pyStr, hs]
  · intro row k p hput
    simp only [pipelineRunRow] at hput
    split at hput
    · cases hput
    · split at hput
      · cases hput
      · injection hput with hk hp
        subst hk
        rfl

/-- A pipeline_runs row with a whitespace-only source. -/
def c10Row : Row :=
  [("run_at", .str "2024-01-01T00:00:00Z"), ("mode", .str "manual"),
   ("source", .str "   ")]

/-- Witness for C10: concrete rows with a null and a whitespace-only
source, and the key of a concrete successful row. -/
theorem claim_C10_witness :
    pipeline_source [("source", Value.null)] = "local-dispatcher" ∧
    pipeline_source c10Row = "local-dispatcher" ∧
    ((some ⟨1704067200000000, some 0⟩, "manual", "local-dispatcher") : PRKey).2.2
      = pipeline_source c10Row :=
  ⟨claim_C10.1 [("source", Value.null)] rfl,
   claim_C10.2.1 c10Row "   " rfl rfl,
   claim_C10.2.2 c10Row (some ⟨1704067200000000, some 0⟩, "manual", "local-dispatcher")
     { fetched_count := 0, significant_count := 0, reported_count := 0, note := .null } rfl⟩

/-! ## Claim C7: timestamp parsing -/

theorem astimezoneUTC_tz (d : PyDateTime) : (astimezoneUTC d).tz = some 0 := by
  rcases h : d.tz with _ | off <;> simp [astimezoneUTC, h]

/-- Every present result of `parse_timestamp` is in UTC. -/
theorem parse_timestamp_tz (input : TsInput) (required : Bool) (d : PyDateTime)
    (h : parse_timestamp input required = .ok (some d)) : d.tz = some 0 := by
  have hmap : ∀ v : Value,
      (tsParseValue v).map (fun dt => some (astimezoneUTC (withUTCIfNaive dt))) = .ok (some d) →
      d.tz = some 0 := by
    intro v hv
    rcases ht : tsParseValue v with e | dt <;> rw [ht] at hv
    · cases hv
    · have := Option.some.inj (Except.ok.inj hv)
      rw [← this]
      exact astimezoneUTC_tz _
  cases input with
  | dt d2 =>
    simp only [parse_timestamp] at h
    have := Option.some.inj (Except.ok.inj h)
    rw [← this]
    exact astimezoneUTC_tz _
  | value v =>
    cases v with
    | null =>
      simp only [parse_timestamp] at h
      split at h <;> cases h
    | str s =>
      simp only [parse_timestamp] at h
      split at h
      · split at h <;> cases h
      · exact hmap (.str s) h
    | bool b => exact hmap (.bool b) h
    | int n => exact hmap (.int n) h
    | float lit => exact hmap (.float lit) h
    | arr xs => exact hmap (.arr xs) h
    | obj fs => exact hmap (.obj fs) h

/-- C7: the two ISO-8601 renderings `"2024-01-01T00:00:00Z"` and
`"2024-01-01T05:00:00+05:00"` of one instant parse to the same UTC
result, and in general any two successfully parsed inputs denoting the
same instant yield the same UTC result; naive inputs are read as UTC;
every result is in UTC; a `required` parse of an absent/empty input
fails with the validation error, and an optional parse of an absent
input yields null. -/
theorem claim_C7 :
    parse_timestamp (.value (.str "2024-01-01T00:00:00Z")) true
      = parse_timestamp (.value (.str "2024-01-01T05:00:00+05:00")) true ∧
    parse_timestamp (.value (.str "2024-01-01T00:00:00Z")) true
      = .ok (some ⟨1704067200000000, some 0⟩) ∧
    (∀ (input : TsInput) (required : Bool) (d : PyDateTime),
      parse_timestamp input required = .ok (some d) → d.tz = some 0) ∧
    (∀ (i1 i2 : TsInput) (r1 r2 : Bool) (d1 d2 : PyDateTime),
      parse_timestamp i1 r1 = .ok (some d1) → parse_timestamp i2 r2 = .ok (some d2) →
      pyInstant d1 = pyInstant d2 → d1 = d2) ∧
    (∀ (d : PyDateTime) (r : Bool), d.tz = none →
      parse_timestamp (.dt d) r = .ok (some ⟨d.us, some 0⟩)) ∧
    (∀ (s : String) (dt : PyDateTime) (r : Bool), s ≠ "" →
      tsParseValue (.str s) = .ok dt → dt.tz = none →
      parse_timestamp (.value (.str s)) r = .ok (some ⟨dt.us, some 0⟩)) ∧
    parse_timestamp (.value .null) true = .error "missing required timestamp" ∧
    parse_timestamp (.value (.str "")) true = .error "missing required timestamp" ∧
    parse_timestamp (.value .null) false = .ok none := by
  refine ⟨rfl, rfl, parse_timestamp_tz, ?_, ?_, ?_, rfl, rfl, rfl⟩
  · intro i1 i2 r1 r2 d1 d2 h1 h2 hinst
    have t1 := parse_timestamp_tz i1 r1 d1 h1
    have t2 := parse_timestamp_tz i2 r2 d2 h2
    simp only [pyInstant, t1, t2, Option.getD_some] at hinst
    cases d1; cases d2
    simp_all
  · intro d r hnaive
    simp [parse_timestamp, withUTCIfNaive, hnaive, astimezoneUTC]
  · intro s dt r hs hparse hnaive
    simp [parse_timestamp, if_neg hs, hparse, Except.map, withUTCIfNaive, hnaive,
      astimezoneUTC]

/-- Witness for C7: the quantified parts applied to the two concrete
renderings of 2024-01-01T00:00:00Z and to a concrete naive input. -/
theorem claim_C7_witness :
    (( ⟨1704067200000000, some 0⟩ : PyDateTime) = ⟨1704067200000000, some 0⟩) ∧
    parse_timestamp (.dt ⟨42, none⟩) true = .ok (some ⟨42, some 0⟩) ∧
    parse_timestamp (.value (.str "2024-01-01 00:00:00")) true
      = .ok (some ⟨1704067200000000, some 0⟩) :=
  ⟨claim_C7.2.2.2.1 (.value (.str "2024-01-01T00:00:00Z"))
      (.value (.str "2024-01-01T05:00:00+05:00")) true true
      ⟨1704067200000000, some 0⟩ ⟨1704067200000000, some 0⟩ rfl rfl rfl,
   claim_C7.2.2.2.2.1 ⟨42, none⟩ true rfl,
   claim_C7.2.2.2.2.2.1 "2024-01-01 00:00:00" ⟨1704067200000000, none⟩ true
     (by decide) rfl rfl⟩

/-! ## Claim C8: derived snapshots -/

theorem insertSnaps_cons (acc : List SnapRow) (c : SnapRow) (cs : List SnapRow) :
    insertSnaps acc (c :: cs) = insertSnaps (insertSnap acc c) cs := rfl

/-- An insert-or-ignore statement only appends. -/
theorem insertSnaps_prefix (cands : List SnapRow) :
    ∀ acc : List SnapRow, ∃ t, insertSnaps acc cands = acc ++ t := by
  induction cands with
  | nil => exact fun acc => ⟨[], (List.append_nil acc).symm⟩
  | cons c cs ih =>
    intro acc
    rw [insertSnaps_cons]
    unfold insertSnap
    split
    · exact ih acc
    · rcases ih (acc ++ [c]) with ⟨t, ht⟩
      exact ⟨[c] ++ t, by rw [ht, List.append_assoc]⟩

/-- After an insert-or-ignore statement, every candidate's key is
present. -/
theorem insertSnaps_key_present (cands : List SnapRow) :
    ∀ (acc : List SnapRow) (c : SnapRow), c ∈ cands →
    ∃ r ∈ insertSnaps acc cands, snapKey r = snapKey c := by
  induction cands with
  | nil => intro acc c h; cases h
  | cons c2 cs ih =>
    intro acc c h
    rw [insertSnaps_cons]
    rcases List.mem_cons.mp h with h | h
    · subst h
      have hmem : ∃ r ∈ insertSnap acc c, snapKey r = snapKey c := by
        unfold insertSnap
        split
        · rename_i hany
          rcases List.any_eq_true.mp hany with ⟨r, hr, hk⟩
          exact ⟨r, hr, by simpa using hk⟩
        · exact ⟨c, by simp⟩
      rcases hmem with ⟨r, hr, hk⟩
      rcases insertSnaps_prefix cs (insertSnap acc c) with ⟨t, ht⟩
      exact ⟨r, by rw [ht]; exact List.mem_append_left _ hr, hk⟩
    · exact ih _ c h

/-- An insert-or-ignore statement whose candidates' keys are all
already present changes nothing. -/
theorem insertSnaps_no_new (cands : List SnapRow) :
    ∀ acc : List SnapRow, (∀ c ∈ cands, ∃ r ∈ acc, snapKey r = snapKey c) →
    insertSnaps acc cands = acc := by
  induction cands with
  | nil => intro acc _; rfl
  | cons c cs ih =>
    intro acc h
    rw [insertSnaps_cons]
    have hins : insertSnap acc c = acc := by
      unfold insertSnap
      rw [if_pos]
      rcases h c (List.mem_cons_self c cs) with ⟨r, hr, hk⟩
      exact List.any_eq_true.mpr ⟨r, hr, by simpa using hk⟩
    rw [hins]
    exact ih acc (fun c2 h2 => h c2 (List.mem_cons_of_mem _ h2))

/-- Members of the result come from the initial table or the
candidates. -/
theorem mem_insertSnaps (cands : List SnapRow) :
    ∀ (acc : List SnapRow) (x : SnapRow), x ∈ insertSnaps acc cands → x ∈ acc ∨ x ∈ cands := by
  induction cands with
  | nil => intro acc x h; exact Or.inl h
  | cons c cs ih =>
    intro acc x h
    rw [insertSnaps_cons] at h
    rcases ih _ x h with h2 | h2
    · unfold insertSnap at h2
      split at h2
      · exact Or.inl h2
      · rcases List.mem_append.mp h2 with h3 | h3
        · exact Or.inl h3
        · simp only [List.mem_singleton] at h3
          exact Or.inr (h3 ▸ List.mem_cons_self c cs)
    · exact Or.inr (List.mem_cons_of_mem _ h2)

/-- Insert-or-ignore preserves key uniqueness. -/
theorem insertSnaps_nodup (cands : List SnapRow) :
    ∀ acc : List SnapRow, (acc.map snapKey).Nodup →
    ((insertSnaps acc cands).map snapKey).Nodup := by
  induction cands with
  | nil => intro acc h; exact h
  | cons c cs ih =>
    intro acc h
    rw [insertSnaps_cons]
    apply ih
    unfold insertSnap
    split
    · exact h
    · rename_i hany
      have hnot : snapKey c ∉ acc.map snapKey := by
        intro hmem
        rcases List.mem_map.mp hmem with ⟨r, hr, hk⟩
        exact hany (List.any_eq_true.mpr ⟨r, hr, by simpa using hk⟩)
      rw [List.map_append]
      simp only [List.map_cons, List.map_nil]
      refine List.Nodup.append h (List.nodup_singleton _) ?_
      intro a ha1 ha2
      simp only [List.mem_singleton] at ha2
      exact hnot (ha2 ▸ ha1)

/-- Python `derive_snapshots` written as its three statements. -/
theorem derive_snapshots_eq (source : String) (posts : List (String × PostPayload))
    (snaps : List SnapRow) :
    derive_snapshots source posts snaps =
      insertSnaps
        (insertSnaps (insertSnaps snaps (posts.map (initialCaptureRow source)))
          (posts.map (latestObservedRow source)))
        ((posts.filter (fun p => p.2.refresh_24h_at.isSome)).map (refresh24hRow source)) := rfl

/-- C8: the snapshot generator inserts with skip-on-duplicate
semantics on (status_id, snapshot_type, snapshot_at): re-running it
changes nothing, existing rows are never updated or removed, key
uniqueness is preserved, and every new refresh_24h row comes from a
post whose 24h-refresh timestamp is non-null. -/
theorem claim_C8 :
    (∀ (source : String) (posts : List (String × PostPayload)) (snaps : List SnapRow),
      derive_snapshots source posts (derive_snapshots source posts snaps)
        = derive_snapshots source posts snaps) ∧
    (∀ (source : String) (posts : List (String × PostPayload)) (snaps : List SnapRow),
      ∃ t, derive_snapshots source posts snaps = snaps ++ t) ∧
    (∀ (source : String) (posts : List (String × PostPayload)) (snaps : List SnapRow)
       (r : SnapRow),
      r ∈ derive_snapshots source posts snaps → r ∉ snaps →
      r.snapshot_type = "refresh_24h" →
      ∃ p ∈ posts, p.2.refresh_24h_at.isSome ∧ r = refresh24hRow source p) ∧
    (∀ (source : String) (posts : List (String × PostPayload)) (snaps : List SnapRow),
      (snaps.map snapKey).Nodup →
      ((derive_snapshots source posts snaps).map snapKey).Nodup) := by
  refine ⟨?_, ?_, ?_, ?_⟩
  · intro source posts snaps
    obtain ⟨t2, ht2⟩ :=
      insertSnaps_prefix (posts.map (latestObservedRow source))
        (insertSnaps snaps (posts.map (initialCaptureRow source)))
    obtain ⟨t3, ht3⟩ :=
      insertSnaps_prefix
        ((posts.filter (fun p => p.2.refresh_24h_at.isSome)).map (refresh24hRow source))
        (insertSnaps (insertSnaps snaps (posts.map (initialCaptureRow source)))
          (posts.map (latestObservedRow source)))
    have hmemS : ∀ r, r ∈ insertSnaps snaps (posts.map (initialCaptureRow source)) →
        r ∈ derive_snapshots source posts snaps := by
      intro r hr
      rw [derive_snapshots_eq, ht3, ht2]
      exact List.mem_append_left _ (List.mem_append_left _ hr)
    have hmemS2 : ∀ r,
        r ∈ insertSnaps (insertSnaps snaps (posts.map (initialCaptureRow source)))
              (posts.map (latestObservedRow source)) →
        r ∈ derive_snapshots source posts snaps := by
      intro r hr
      rw [derive_snapshots_eq, ht3]
      exact List.mem_append_left _ hr
    have h1 : insertSnaps (derive_snapshots source posts snaps)
        (posts.map (initialCaptureRow source)) = derive_snapshots source posts snaps := by
      apply insertSnaps_no_new
      intro c hc
      obtain ⟨r, hr, hk⟩ := insertSnaps_key_present _ snaps c hc
      exact ⟨r, hmemS r hr, hk⟩
    have h2 : insertSnaps (derive_snapshots source posts snaps)
        (posts.map (latestObservedRow source)) = derive_snapshots source posts snaps := by
      apply insertSnaps_no_new
      intro c hc
      obtain ⟨r, hr, hk⟩ :=
        insertSnaps_key_present _ (insertSnaps snaps (posts.map (initialCaptureRow source))) c hc
      exact ⟨r, hmemS2 r hr, hk⟩
    have h3 : insertSnaps (derive_snapshots source posts snaps)
        ((posts.filter (fun p => p.2.refresh_24h_at.isSome)).map (refresh24hRow source))
        = derive_snapshots source posts snaps := by
      apply insertSnaps_no_new
      intro c hc
      obtain ⟨r, hr, hk⟩ :=
        insertSnaps_key_present _
          (insertSnaps (insertSnaps snaps (posts.map (initialCaptureRow source)))
            (posts.map (latestObservedRow source))) c hc
      refine ⟨r, ?_, hk⟩
      rw [derive_snapshots_eq]
      exact hr
    rw [derive_snapshots_eq source posts (derive_snapshots source posts snaps), h1, h2, h3]
  · intro source posts snaps
    rw [derive_snapshots_eq]
    obtain ⟨t1, ht1⟩ := insertSnaps_prefix (posts.map (initialCaptureRow source)) snaps
    obtain ⟨t2, ht2⟩ :=
      insertSnaps_prefix (posts.map (latestObservedRow source))
        (insertSnaps snaps (posts.map (initialCaptureRow source)))
    obtain ⟨t3, ht3⟩ :=
      insertSnaps_prefix
        ((posts.filter (fun p => p.2.refresh_24h_at.isSome)).map (refresh24hRow source))
        (insertSnaps (insertSnaps snaps (posts.map (initialCaptureRow source)))
          (posts.map (latestObservedRow source)))
    refine ⟨t1 ++ t2 ++ t3, ?_⟩
    rw [ht3, ht2, ht1]
    simp [List.append_assoc]
  · intro source posts snaps r hmem hnotold htype
    rw [derive_snapshots_eq] at hmem
    rcases mem_insertSnaps _ _ r hmem with h2 | h2
    · rcases mem_insertSnaps _ _ r h2 with h3 | h3
      · rcases mem_insertSnaps _ _ r h3 with h4 | h4
        · exact absurd h4 hnotold
        · rcases List.mem_map.mp h4 with ⟨p, _, hp⟩
          rw [← hp] at htype
          simp [initialCaptureRow] at htype
      · rcases List.mem_map.mp h3 with ⟨p, _, hp⟩
        rw [← hp] at htype
        simp [latestObservedRow] at htype
    · rcases List.mem_map.mp h2 with ⟨p, hpmem, hp⟩
      rcases List.mem_filter.mp hpmem with ⟨hpost, hrefresh⟩
      exact ⟨p, hpost, by simpa using hrefresh, hp.symm⟩
  · intro source posts snaps h
    rw [derive_snapshots_eq]
    exact insertSnaps_nodup _ _ (insertSnaps_nodup _ _ (insertSnaps_nodup _ _ h))

/-- A concrete post payload with a non-null 24h-refresh timestamp. -/
def c8Payload : PostPayload :=
  { url := "http://x/1", author_handle := "foo", author_display := .null, body_text := .null,
    posted_relative := .null, source_query := .null, watch_tier := none, is_significant := false,
    significance_reason := .null, significance_version := .str "v1",
    likes := 0, reposts := 0, replies := 0, views := 0,
    initial_likes := 0, initial_reposts := 0, initial_replies := 0, initial_views := 0,
    likes_24h := 0, reposts_24h := 0, replies_24h := 0, views_24h := 0,
    refresh_24h_at := some ⟨0, some 0⟩, refresh_24h_status := .null,
    refresh_24h_delta_likes := 0, refresh_24h_delta_reposts := 0,
    refresh_24h_delta_replies := 0, refresh_24h_delta_views := 0,
    discovered_at := some ⟨0, some 0⟩, last_seen_at := some ⟨0, some 0⟩ }

/-- Witness for C8: the quantified parts applied to a one-post, empty
snapshot state. -/
theorem claim_C8_witness :
    (∃ p ∈ [("1", c8Payload)], p.2.refresh_24h_at.isSome ∧
      refresh24hRow "src" ("1", c8Payload) = refresh24hRow "src" p) ∧
    (([] : List SnapRow).map snapKey).Nodup ∧
    ((derive_snapshots "src" [("1", c8Payload)] []).map snapKey).Nodup := by
  refine ⟨?_, List.nodup_nil, claim_C8.2.2.2 "src" [("1", c8Payload)] [] List.nodup_nil⟩
  exact claim_C8.2.2.1 "src" [("1", c8Payload)] [] (refresh24hRow "src" ("1", c8Payload))
    (by decide) (by decide) rfl

/-! ## Claim C3: the validator's exit status -/

/-- A sqlite snapshot whose `reports` count disagrees with the
destination, with no tweets to spot-check. -/
def c3SqMismatch : SqliteState :=
  { tweets := [], reports_count := 1, watch_accounts_count := 0,
    runs_count := 0, embeddings_count := 0 }

def c3PgMismatch : PgState :=
  { posts := [], reports_count := 0, watch_accounts_count := 0,
    pipeline_runs_count := 0, embeddings_count := 0, snapshots_count := 0 }

/-- C3, counterexample: the validator's exit status checks only the
spot-check results; with the source reporting one `reports` row and
the destination zero (counts disagree) but a clean spot check, it
still exits 0 — refuting "non-zero whenever the per-table counts
disagree". -/
theorem claim_C3_counterexample :
    validate_counts_main c3SqMismatch c3PgMismatch 20 []
      = .ok (countsReport c3SqMismatch c3PgMismatch, ⟨20, 0, [], []⟩, 0) ∧
    ("reports", 1, 0) ∈ countsReport c3SqMismatch c3PgMismatch :=
  ⟨rfl, by decide⟩

/-- A sqlite snapshot with one tweet, and a destination with no
posts. -/
def c3SqMissing : SqliteState :=
  { tweets := [[("status_id", .str "123"), ("url", .str "http://x/123")]],
    reports_count := 0, watch_accounts_count := 0, runs_count := 0, embeddings_count := 0 }

def c3PgMissing : PgState :=
  { posts := [], reports_count := 0, watch_accounts_count := 0,
    pipeline_runs_count := 0, embeddings_count := 0, snapshots_count := 0 }

/-- C3 (amended): the validator exits 2 exactly when the spot check
found a destination-missing id or a field mismatch, and 0 otherwise;
the per-table count comparison is reported but never affects the exit
status (states differing only in counts produce the same exit code);
a sampled post absent from the destination makes it exit 2 and lists
that status_id under missing-in-destination. -/
theorem claim_C3_amended :
    (∀ (sq : SqliteState) (pg : PgState) (n : Nat) (ids : List String)
       (rep : List (String × Nat × Nat)) (spot : SpotCheck) (code : Nat),
      validate_counts_main sq pg n ids = .ok (rep, spot, code) →
      ((spot.mismatches ≠ [] ∨ spot.missing_in_pg ≠ []) → code = 2) ∧
      (spot.mismatches = [] → spot.missing_in_pg = [] → code = 0)) ∧
    (∀ (sq sq2 : SqliteState) (pg pg2 : PgState) (n : Nat) (ids : List String)
       (rep : List (String × Nat × Nat)) (spot : SpotCheck) (code : Nat),
      sq2.tweets = sq.tweets → pg2.posts = pg.posts →
      validate_counts_main sq pg n ids = .ok (rep, spot, code) →
      validate_counts_main sq2 pg2 n ids = .ok (countsReport sq2 pg2, spot, code)) ∧
    validate_counts_main c3SqMissing c3PgMissing 20 []
      = .ok (countsReport c3SqMissing c3PgMissing, ⟨20, 1, ["123"], []⟩, 2) ∧
    "123" ∈ (⟨20, 1, ["123"], []⟩ : SpotCheck).missing_in_pg := by
  refine ⟨?_, ?_, rfl, by decide⟩
  · intro sq pg n ids rep spot code h
    unfold validate_counts_main at h
    split at h
    · cases h
    · rename_i spot0 hspot
      injection h with h1
      injection h1 with ha hb
      injection hb with hb1 hb2
      constructor
      · intro hne
        rw [← hb2, hb1]
        rcases hne with hne | hne
        · have : spot.mismatches.isEmpty = false := by
            rcases hm : spot.mismatches with _ | ⟨a, l⟩
            · exact absurd hm hne
            · rfl
          simp [this]
        · have : spot.missing_in_pg.isEmpty = false := by
            rcases hm : spot.missing_in_pg with _ | ⟨a, l⟩
            · exact absurd hm hne
            · rfl
          simp [this]
      · intro hm1 hm2
        rw [← hb2, hb1]
        simp [hm1, hm2]
  · intro sq sq2 pg pg2 n ids rep spot code htw hpo h
    unfold validate_counts_main at h ⊢
    rw [htw, hpo]
    split at h
    · cases h
    · rename_i spot0 hspot
      injection h with h1
      injection h1 with ha hb
      injection hb with hb1 hb2
      rw [hb1] at hb2 ⊢
      rw [hb2]

/-- Witness for C3 (amended): the quantified parts applied to the
concrete missing-post scenario and to a counts-only perturbation of
it. -/
theorem claim_C3_amended_witness :
    (((⟨20, 1, ["123"], []⟩ : SpotCheck).mismatches ≠ []
        ∨ (⟨20, 1, ["123"], []⟩ : SpotCheck).missing_in_pg ≠ []) → (2 : Nat) = 2) ∧
    validate_counts_main
        { c3SqMissing with reports_count := 7 }
        { c3PgMissing with reports_count := 9 } 20 []
      = .ok (countsReport { c3SqMissing with reports_count := 7 }
              { c3PgMissing with reports_count := 9 },
             ⟨20, 1, ["123"], []⟩, 2) :=
  ⟨((claim_C3_amended.1 c3SqMissing c3PgMissing 20 []
      (countsReport c3SqMissing c3PgMissing) ⟨20, 1, ["123"], []⟩ 2 rfl).1 : _),
   claim_C3_amended.2.1 c3SqMissing { c3SqMissing with reports_count := 7 }
     c3PgMissing { c3PgMissing with reports_count := 9 } 20 []
     (countsReport c3SqMissing c3PgMissing) ⟨20, 1, ["123"], []⟩ 2 rfl rfl rfl⟩

end XMonitor
